import Mathlib

/-!
Shallow embedding, in Lean 4, of the core modules of the
hybrid-graph-rag-medical-assistant repository, together with proofs of the
behavioural properties stated in its specification.

Python strings are embedded as Lean `String` / `List Char`; Python floats
appearing in the wearable statistics are embedded as rationals; Python dicts
with fixed key sets are embedded as structures with `Option` fields for keys
that may be absent.  Every definition is translated from the corresponding
Python source function and keeps its name (modulo Lean identifier syntax).
-/

namespace MedRag

/-- Characters treated as whitespace by Python `str.strip()` and the regex
class `\s` (ASCII range, which covers all text this system handles). -/
def isPySpace (c : Char) : Bool :=
  c = ' ' || c = '\t' || c = '\n' || c = '\r' || c = '\x0b' || c = '\x0c'

/-- Python `str.lower()` on a single character (ASCII letters; all names and
keywords in this code base are ASCII). -/
def lowerChar (c : Char) : Char :=
  if 65 ≤ c.toNat ∧ c.toNat ≤ 90 then Char.ofNat (c.toNat + 32) else c

/-- Python `str.lower()`. -/
def lowerStr (s : String) : String := ⟨s.data.map lowerChar⟩

/-- Python `str.strip()` on a character list: drop leading and trailing
whitespace. -/
def stripList (l : List Char) : List Char :=
  List.rdropWhile isPySpace (l.dropWhile isPySpace)

/-- Python `str.strip()`. -/
def stripStr (s : String) : String := ⟨stripList s.data⟩

/-- Python `<` on strings: lexicographic comparison by code point,
as a boolean `≤` test. -/
def charListLe : List Char → List Char → Bool
  | [], _ => true
  | _ :: _, [] => false
  | a :: as, b :: bs => if a < b then true else if a = b then charListLe as bs else false

/-- Ordering used by Python `sorted()` on strings. -/
def strLe (a b : String) : Prop := charListLe a.data b.data = true

instance : DecidableRel strLe := fun a b =>
  inferInstanceAs (Decidable (charListLe a.data b.data = true))

theorem charListLe_total (l₁ l₂ : List Char) :
    charListLe l₁ l₂ = true ∨ charListLe l₂ l₁ = true := by
  induction l₁ generalizing l₂ with
  | nil => left; rfl
  | cons a as ih =>
    cases l₂ with
    | nil => right; rfl
    | cons b bs =>
      rcases lt_trichotomy a b with h | h | h
      · left; simp [charListLe, h]
      · subst h
        rcases ih bs with h' | h' <;> [left; right] <;>
          simp [charListLe, h', lt_irrefl]
      · right; simp [charListLe, h]

theorem charListLe_trans {l₁ l₂ l₃ : List Char}
    (h₁ : charListLe l₁ l₂ = true) (h₂ : charListLe l₂ l₃ = true) :
    charListLe l₁ l₃ = true := by
  induction l₁ generalizing l₂ l₃ with
  | nil => rfl
  | cons a as ih =>
    cases l₂ with
    | nil => simp [charListLe] at h₁
    | cons b bs =>
      cases l₃ with
      | nil => simp [charListLe] at h₂
      | cons c cs =>
        simp only [charListLe] at h₁ h₂ ⊢
        by_cases hab : a < b
        · have hbc : b ≤ c := by
            by_cases h : b < c
            · exact le_of_lt h
            · simp [h] at h₂
              by_cases h' : b = c
              · exact le_of_eq h'
              · simp [h'] at h₂
          have : a < c := lt_of_lt_of_le hab hbc
          simp [this]
        · simp [hab] at h₁
          by_cases hab' : a = b
          · subst hab'
            simp at h₁
            by_cases hac : a < c
            · simp [hac]
            · simp [hac] at h₂ ⊢
              by_cases hac' : a = c
              · subst hac'
                simp at h₂ ⊢
                exact ih h₁ h₂
              · simp [hac'] at h₂
          · simp [hab'] at h₁

theorem charListLe_antisymm {l₁ l₂ : List Char}
    (h₁ : charListLe l₁ l₂ = true) (h₂ : charListLe l₂ l₁ = true) : l₁ = l₂ := by
  induction l₁ generalizing l₂ with
  | nil =>
    cases l₂ with
    | nil => rfl
    | cons b bs => simp [charListLe] at h₂
  | cons a as ih =>
    cases l₂ with
    | nil => simp [charListLe] at h₁
    | cons b bs =>
      simp only [charListLe] at h₁ h₂
      by_cases hab : a < b
      · have : ¬ b < a := lt_asymm hab
        simp [this, hab] at h₂
        exact absurd h₂.1 (ne_of_gt hab)
      · simp [hab] at h₁
        by_cases hab' : a = b
        · subst hab'
          simp [lt_irrefl] at h₁ h₂
          rw [ih h₁ h₂]
        · simp [hab'] at h₁

instance : IsTotal String strLe := ⟨fun a b => charListLe_total a.data b.data⟩

instance : IsTrans String strLe := ⟨fun _ _ _ h₁ h₂ => charListLe_trans h₁ h₂⟩

instance : IsAntisymm String strLe :=
  ⟨fun a b h₁ h₂ => by
    cases a; cases b
    exact congrArg String.mk (charListLe_antisymm h₁ h₂)⟩

/-- Python `sorted()` on a list of strings (code-point lexicographic order;
the concrete sorting algorithm is irrelevant to the result since the order is
total and the inputs it is applied to are duplicate-free). -/
def sortStrings (l : List String) : List String := List.insertionSort strLe l

theorem toNat_ofNat_of_lt {n : ℕ} (h : n < 55296) : (Char.ofNat n).toNat = n := by
  have hv : Nat.isValidChar n := Or.inl h
  simp [Char.ofNat, hv]
  simp [Char.ofNatAux, Char.toNat, UInt32.ofNatCore, UInt32.toNat]

theorem lowerChar_toNat_of_upper {c : Char} (h : 65 ≤ c.toNat ∧ c.toNat ≤ 90) :
    (lowerChar c).toNat = c.toNat + 32 := by
  rw [lowerChar, if_pos h]
  exact toNat_ofNat_of_lt (by omega)

theorem lowerChar_eq_self {c : Char} (h : ¬ (65 ≤ c.toNat ∧ c.toNat ≤ 90)) :
    lowerChar c = c := by
  rw [lowerChar, if_neg h]

theorem lowerChar_idem (c : Char) : lowerChar (lowerChar c) = lowerChar c := by
  by_cases h : 65 ≤ c.toNat ∧ c.toNat ≤ 90
  · have ht := lowerChar_toNat_of_upper h
    exact lowerChar_eq_self (by omega)
  · rw [lowerChar_eq_self h]
    exact lowerChar_eq_self h

theorem isPySpace_lowerChar (c : Char) : isPySpace (lowerChar c) = isPySpace c := by
  by_cases h : 65 ≤ c.toNat ∧ c.toNat ≤ 90
  · have ht := lowerChar_toNat_of_upper h
    have hsp : ∀ d : Char, isPySpace d = true → d.toNat < 60 := by
      intro d hd
      simp only [isPySpace, Bool.or_eq_true, decide_eq_true_eq] at hd
      rcases hd with (((((h' | h') | h') | h') | h') | h') <;> subst h' <;> decide
    have h₁ : isPySpace (lowerChar c) = false := by
      cases h' : isPySpace (lowerChar c)
      · rfl
      · exact absurd (hsp _ h') (by omega)
    have h₂ : isPySpace c = false := by
      cases h' : isPySpace c
      · rfl
      · exact absurd (hsp _ h') (by omega)
    rw [h₁, h₂]
  · rw [lowerChar, if_neg h]

theorem map_lowerChar_idem (l : List Char) :
    (l.map lowerChar).map lowerChar = l.map lowerChar := by
  rw [List.map_map]
  exact List.map_congr_left fun c _ => lowerChar_idem c

theorem isPySpace_comp_lowerChar : isPySpace ∘ lowerChar = isPySpace :=
  funext isPySpace_lowerChar

theorem dropWhile_map_lowerChar (l : List Char) :
    (l.map lowerChar).dropWhile isPySpace = (l.dropWhile isPySpace).map lowerChar := by
  rw [List.dropWhile_map, isPySpace_comp_lowerChar]

theorem rdropWhile_map_lowerChar (l : List Char) :
    List.rdropWhile isPySpace (l.map lowerChar) =
      (List.rdropWhile isPySpace l).map lowerChar := by
  simp only [List.rdropWhile]
  rw [← List.map_reverse, dropWhile_map_lowerChar, List.map_reverse]

theorem stripList_map_lowerChar (l : List Char) :
    stripList (l.map lowerChar) = (stripList l).map lowerChar := by
  rw [stripList, dropWhile_map_lowerChar, rdropWhile_map_lowerChar, stripList]

theorem dropWhile_stripList (l : List Char) :
    (stripList l).dropWhile isPySpace = stripList l := by
  rw [stripList]
  have hmm : (l.dropWhile isPySpace).dropWhile isPySpace = l.dropWhile isPySpace :=
    List.dropWhile_idempotent _ _
  rcases h : List.rdropWhile isPySpace (l.dropWhile isPySpace) with _ | ⟨c, t⟩
  · rfl
  · have hpre : List.rdropWhile isPySpace (l.dropWhile isPySpace) <+:
        l.dropWhile isPySpace := List.rdropWhile_prefix _ _
    rw [h] at hpre
    rcases hpre with ⟨t', ht'⟩
    have hc : isPySpace c = false := by
      rw [← ht'] at hmm
      simp only [List.cons_append, List.dropWhile_cons] at hmm
      by_cases hciso : isPySpace c = true
      · rw [if_pos hciso] at hmm
        have hlen := congrArg List.length hmm
        have hle := (List.dropWhile_sublist (l := t ++ t') isPySpace).length_le
        simp only [List.length_cons, List.length_append] at hlen hle
        omega
      · simpa using hciso
    simp [List.dropWhile_cons, hc]

theorem stripList_idem (l : List Char) : stripList (stripList l) = stripList l := by
  rw [stripList, dropWhile_stripList, stripList, List.rdropWhile_idempotent]

/-- Full name normalisation step applied to each medication name by
`check_drug_interactions`: `str(...).lower().strip()`. -/
def lowerStrip (s : String) : String := stripStr (lowerStr s)

theorem lowerStrip_idem (s : String) : lowerStrip (lowerStrip s) = lowerStrip s := by
  simp only [lowerStrip, stripStr, lowerStr]
  congr 1
  rw [← stripList_map_lowerChar, map_lowerChar_idem, stripList_idem]

/-! Embedding of `app/knowledge_graph/drug_interactions.py`. -/

/-- One entry of the `medications` argument of `check_drug_interactions`:
a dict whose `name` key may be absent.  (`m.get("name")` is falsy both when
the key is absent and when it is the empty string.) -/
structure Medication where
  name : Option String
deriving DecidableEq

/-- One fact emitted by `_check_drug_drug_facts`. -/
structure DrugDrugFact where
  type : String
  drugs_involved : List String
  severity : String
  interaction : String
  mechanism : String
  evidence : String
deriving DecidableEq

/-- One fact emitted by `_check_drug_effect_facts`. -/
structure DrugEffectFact where
  type : String
  drug : String
  effect : String
  mechanism : String
  clinical_relevance : String
  evidence : String
deriving DecidableEq

/-- One fact emitted by `_check_drug_condition_facts` (Neo4j backed). -/
structure DrugCondFact where
  type : String
  drug : String
  condition : String
  severity : String
  evidence : String
deriving DecidableEq

/-- One entry of the hard-coded `RULES` table in `_check_drug_drug_facts`. -/
structure InteractionRule where
  drugs : List String
  severity : String
  interaction : String
  mechanism : String
  evidence : String

/-- The `RULES` table of `_check_drug_drug_facts`, transcribed verbatim.
Each Python `drugs` set literal is embedded as the list of its elements. -/
def interactionRules : List InteractionRule :=
  [ { drugs := ["metformin", "contrast dye"], severity := "high",
      interaction := "Increased risk of lactic acidosis",
      mechanism := "Contrast agents may impair renal function, leading to metformin accumulation.",
      evidence := "clinical literature" },
    { drugs := ["metformin", "insulin"], severity := "moderate",
      interaction := "Increased risk of hypoglycemia",
      mechanism := "Both drugs lower blood glucose levels.",
      evidence := "clinical guidelines" },
    { drugs := ["metformin", "alcohol"], severity := "high",
      interaction := "Increased risk of lactic acidosis",
      mechanism := "Alcohol affects hepatic lactate metabolism.",
      evidence := "drug safety literature" },
    { drugs := ["aspirin", "atorvastatin"], severity := "low",
      interaction := "Minor increase in bleeding risk",
      mechanism := "Aspirin inhibits platelet aggregation; statins have mild antiplatelet properties.",
      evidence := "clinical literature" },
    { drugs := ["metoprolol", "aspirin"], severity := "low",
      interaction := "NSAIDs may reduce antihypertensive efficacy",
      mechanism := "Prostaglandin inhibition by aspirin can counteract beta-blocker BP effects.",
      evidence := "clinical guidelines" },
    { drugs := ["albuterol inhaler", "montelukast"], severity := "low",
      interaction := "Complementary mechanisms — no adverse interaction",
      mechanism := "Beta-2 agonist and leukotriene antagonist act on different pathways.",
      evidence := "clinical guidelines" },
    { drugs := ["losartan", "furosemide"], severity := "moderate",
      interaction := "Risk of acute kidney injury and electrolyte imbalance",
      mechanism := "Volume depletion from furosemide activates RAAS; ARB blockade then impairs compensatory response.",
      evidence := "clinical guidelines" },
    { drugs := ["furosemide", "calcium carbonate"], severity := "low",
      interaction := "Reduced furosemide absorption",
      mechanism := "Calcium may bind to furosemide in the GI tract, reducing bioavailability.",
      evidence := "pharmacokinetic data" },
    { drugs := ["insulin glargine", "carvedilol"], severity := "moderate",
      interaction := "Masking of hypoglycemia symptoms",
      mechanism := "Non-selective beta blockade blunts tachycardia response to low blood sugar.",
      evidence := "well-established" },
    { drugs := ["metformin", "carvedilol"], severity := "low",
      interaction := "Carvedilol may impair glycemic control",
      mechanism := "Beta blockade can inhibit glycogenolysis and mask hypoglycemia signs.",
      evidence := "clinical literature" },
    { drugs := ["aspirin", "carvedilol"], severity := "low",
      interaction := "NSAIDs may attenuate beta-blocker antihypertensive effect",
      mechanism := "Prostaglandin inhibition reduces vasodilatory compensation.",
      evidence := "clinical guidelines" },
    { drugs := ["atorvastatin", "aspirin"], severity := "low",
      interaction := "Minor additive bleeding risk",
      mechanism := "Both have mild antiplatelet properties.",
      evidence := "clinical literature" } ]

/-- `_check_drug_drug_facts`: a rule fires when its drug set is a subset of
the normalized medication set; `drugs_involved` is the sorted rule set. -/
def _check_drug_drug_facts (drugs : List String) : List DrugDrugFact :=
  (interactionRules.filter fun rule => rule.drugs.all fun d => drugs.contains d).map
    fun rule =>
      { type := "drug-drug-interaction"
        drugs_involved := sortStrings rule.drugs
        severity := rule.severity
        interaction := rule.interaction
        mechanism := rule.mechanism
        evidence := rule.evidence }

/-- Helper for the `if <drug> in drugs: facts.append(...)` blocks of
`_check_drug_effect_facts`. -/
def effectBlock (drugs : List String) (keys : List String) (f : DrugEffectFact) :
    List DrugEffectFact :=
  if keys.all (fun k => drugs.contains k) then [f] else []

/-- `_check_drug_effect_facts`: hard-coded knowledge base, appended in the
source order of the if-blocks. -/
def _check_drug_effect_facts (drugs : List String) : List DrugEffectFact :=
  effectBlock drugs ["metformin"]
    { type := "drug-effect", drug := "metformin",
      effect := "reduced vitamin B12 absorption",
      mechanism := "Metformin interferes with calcium-dependent B12 absorption in the terminal ileum.",
      clinical_relevance := "Long-term use associated with B12 deficiency and peripheral neuropathy.",
      evidence := "well-established" } ++
  effectBlock drugs ["lisinopril"]
    { type := "drug-effect", drug := "lisinopril",
      effect := "orthostatic hypotension and dizziness",
      mechanism := "ACE inhibition reduces angiotensin II-mediated vasoconstriction, lowering systemic vascular resistance.",
      clinical_relevance := "Most pronounced at initiation, dose increases, or in volume-depleted patients.",
      evidence := "well-established" } ++
  effectBlock drugs ["amlodipine"]
    { type := "drug-effect", drug := "amlodipine",
      effect := "peripheral vasodilation causing dizziness and flushing",
      mechanism := "Calcium channel blockade causes smooth muscle relaxation and peripheral vasodilation.",
      clinical_relevance := "Dizziness risk is additive when combined with other antihypertensives.",
      evidence := "well-established" } ++
  effectBlock drugs ["lisinopril", "amlodipine"]
    { type := "drug-effect", drug := "lisinopril + amlodipine",
      effect := "additive blood pressure lowering",
      mechanism := "Combined ACE inhibition and calcium channel blockade produces greater BP reduction than either alone.",
      clinical_relevance := "Monitor for symptomatic hypotension, especially on standing.",
      evidence := "clinical guidelines" } ++
  effectBlock drugs ["atorvastatin"]
    { type := "drug-effect", drug := "atorvastatin",
      effect := "myopathy and elevated liver enzymes",
      mechanism := "HMG-CoA reductase inhibition can impair muscle cell energy metabolism at high doses.",
      clinical_relevance := "Risk increases with higher doses (40-80mg). Monitor for muscle pain and LFTs.",
      evidence := "well-established" } ++
  effectBlock drugs ["aspirin"]
    { type := "drug-effect", drug := "aspirin",
      effect := "GI irritation and bleeding risk",
      mechanism := "Irreversible COX-1 inhibition reduces prostaglandin-mediated gastric mucosal protection.",
      clinical_relevance := "Even low-dose (81mg) aspirin increases GI bleed risk, especially with age.",
      evidence := "well-established" } ++
  effectBlock drugs ["metoprolol"]
    { type := "drug-effect", drug := "metoprolol",
      effect := "bradycardia, fatigue, and masking of hypoglycemia symptoms",
      mechanism := "Beta-1 selective blockade reduces heart rate and blunts sympathetic response to low blood sugar.",
      clinical_relevance := "Particularly relevant in diabetic patients — hypoglycemia sweating is preserved but tachycardia is masked.",
      evidence := "well-established" } ++
  effectBlock drugs ["albuterol inhaler"]
    { type := "drug-effect", drug := "albuterol inhaler",
      effect := "tachycardia and tremor with overuse",
      mechanism := "Beta-2 agonism causes bronchodilation but also stimulates cardiac beta-1 receptors at high doses.",
      clinical_relevance := "Frequent rescue inhaler use (>2x/week) indicates uncontrolled asthma requiring review.",
      evidence := "clinical guidelines" } ++
  effectBlock drugs ["fluticasone inhaler"]
    { type := "drug-effect", drug := "fluticasone inhaler",
      effect := "oral candidiasis and HPA axis suppression with high doses",
      mechanism := "Inhaled corticosteroid deposits in oropharynx; systemic absorption increases at high doses.",
      clinical_relevance := "Patients should rinse mouth after each use to prevent thrush.",
      evidence := "well-established" } ++
  effectBlock drugs ["montelukast"]
    { type := "drug-effect", drug := "montelukast",
      effect := "neuropsychiatric effects including mood changes and sleep disturbance",
      mechanism := "Leukotriene receptor antagonism in the CNS may affect neurological function.",
      clinical_relevance := "FDA black box warning for neuropsychiatric events. Monitor for anxiety, depression, and sleep issues.",
      evidence := "FDA black box warning" } ++
  effectBlock drugs ["losartan"]
    { type := "drug-effect", drug := "losartan",
      effect := "hyperkalemia and acute kidney injury risk",
      mechanism := "ARB blockade of angiotensin II reduces aldosterone, impairing renal potassium excretion.",
      clinical_relevance := "CKD patients already at risk for hyperkalemia — monitor potassium closely.",
      evidence := "well-established" } ++
  effectBlock drugs ["furosemide"]
    { type := "drug-effect", drug := "furosemide",
      effect := "electrolyte depletion (hypokalemia, hyponatremia) and dehydration",
      mechanism := "Loop diuretic inhibits Na-K-2Cl cotransporter in the thick ascending limb of Henle.",
      clinical_relevance := "Monitor electrolytes regularly. Dehydration worsens renal function in CKD.",
      evidence := "well-established" } ++
  effectBlock drugs ["furosemide", "losartan"]
    { type := "drug-effect", drug := "furosemide + losartan",
      effect := "opposing potassium effects requiring close monitoring",
      mechanism := "Furosemide lowers potassium; losartan raises it. Net effect varies by dose and renal function.",
      clinical_relevance := "In CKD, losartan\x27s hyperkalemic effect often dominates — monitor K+ levels frequently.",
      evidence := "clinical guidelines" } ++
  effectBlock drugs ["erythropoietin"]
    { type := "drug-effect", drug := "erythropoietin",
      effect := "hypertension and thrombotic events",
      mechanism := "Increased red cell mass raises blood viscosity and can activate platelet aggregation.",
      clinical_relevance := "Target hemoglobin should not exceed 11-12 g/dL in CKD to minimize cardiovascular risk.",
      evidence := "well-established" } ++
  effectBlock drugs ["insulin glargine"]
    { type := "drug-effect", drug := "insulin glargine",
      effect := "hypoglycemia and weight gain",
      mechanism := "Basal insulin lowers fasting glucose but risks overcorrection, especially with missed meals.",
      clinical_relevance := "Elderly patients have heightened hypoglycemia risk and may not feel classic warning symptoms.",
      evidence := "well-established" } ++
  effectBlock drugs ["insulin glargine", "metformin"]
    { type := "drug-effect", drug := "insulin glargine + metformin",
      effect := "additive glucose lowering with increased hypoglycemia risk",
      mechanism := "Insulin directly lowers glucose; metformin reduces hepatic glucose output — combined effect is synergistic.",
      clinical_relevance := "Monitor fasting glucose closely. Hypoglycemia risk is higher in elderly patients.",
      evidence := "clinical guidelines" } ++
  effectBlock drugs ["carvedilol"]
    { type := "drug-effect", drug := "carvedilol",
      effect := "bradycardia, hypotension, and masking of hypoglycemia",
      mechanism := "Non-selective beta blockade reduces HR and BP; blunts tachycardia response to hypoglycemia.",
      clinical_relevance := "High caution in diabetic patients on insulin — sweating is preserved but palpitations masked.",
      evidence := "well-established" } ++
  effectBlock drugs ["carvedilol", "amlodipine"]
    { type := "drug-effect", drug := "carvedilol + amlodipine",
      effect := "additive hypotension and bradycardia",
      mechanism := "Beta blockade combined with calcium channel blockade produces compounded negative chronotropic and vasodilatory effects.",
      clinical_relevance := "Monitor BP and HR closely. Risk of symptomatic hypotension especially on standing.",
      evidence := "clinical guidelines" }

/-- The names kept by the comprehension filter `if m.get("name")`
(absent names and empty-string names are falsy and dropped). -/
def keptNames (medications : List Medication) : List String :=
  medications.filterMap fun m =>
    match m.name with
    | some s => if s = "" then none else some s
    | none => none

/-- The normalization step of `check_drug_interactions`:
`sorted(\x7bstr(m.get("name", "")).lower().strip() for m in medications if m.get("name")\x7d)`.
The Python set builder is embedded as `List.dedup` of the mapped names. -/
def normalizeDrugNames (medications : List Medication) : List String :=
  sortStrings ((keptNames medications).map lowerStrip).dedup

/-- Return shape of `check_drug_interactions`; `note` is only present in the
`_safe_response` shapes. -/
structure CheckResponse where
  checked_drugs : List String
  drug_drug_interactions : List DrugDrugFact
  drug_condition_interactions : List DrugCondFact
  drug_effect_facts : List DrugEffectFact
  note : Option String
deriving DecidableEq

/-- `_safe_response`: standardized empty response with a note. -/
def _safe_response (reason : String) : CheckResponse :=
  { checked_drugs := []
    drug_drug_interactions := []
    drug_condition_interactions := []
    drug_effect_facts := []
    note := some reason }

/-- The dynamically-typed `medications` argument: a Python value that is
either a list of medication dicts or some non-list value. -/
inductive PyMedsArg where
  | ofList (medications : List Medication)
  | pyNone
  | ofStr (s : String)
  | ofInt (n : ℤ)
  | ofDict
deriving DecidableEq

/-- `check_drug_interactions`.  The Neo4j-backed `_check_drug_condition_facts`
is embedded as an explicit parameter `condFacts` (a deterministic function of
the normalized drug names; the external database state is fixed during one
call), since its data lives outside this code base. -/
def check_drug_interactions (condFacts : List String → List DrugCondFact) :
    PyMedsArg → CheckResponse
  | .ofList medications =>
    let drug_names := normalizeDrugNames medications
    if drug_names = [] then _safe_response "No medications provided"
    else
      { checked_drugs := drug_names
        drug_drug_interactions := _check_drug_drug_facts drug_names
        drug_condition_interactions := condFacts drug_names
        drug_effect_facts := _check_drug_effect_facts drug_names
        note := none }
  | _ => _safe_response "Invalid input: medications must be a list"

theorem sortStrings_perm (l : List String) : (sortStrings l).Perm l :=
  List.perm_insertionSort strLe l

theorem sortStrings_sorted (l : List String) : List.Sorted strLe (sortStrings l) :=
  List.sorted_insertionSort strLe l

theorem sortStrings_eq_of_sorted {l : List String} (h : List.Sorted strLe l) :
    sortStrings l = l :=
  List.eq_of_perm_of_sorted (sortStrings_perm l) (sortStrings_sorted l) h

theorem sortStrings_dedup_eq {l₁ l₂ : List String} (h : ∀ s, s ∈ l₁ ↔ s ∈ l₂) :
    sortStrings l₁.dedup = sortStrings l₂.dedup := by
  have hperm : l₁.dedup.Perm l₂.dedup :=
    List.perm_of_nodup_nodup_toFinset_eq (List.nodup_dedup _) (List.nodup_dedup _)
      (by ext a; simp only [List.mem_toFinset, List.mem_dedup]; exact h a)
  exact List.eq_of_perm_of_sorted
    ((sortStrings_perm _).trans (hperm.trans (sortStrings_perm _).symm))
    (sortStrings_sorted _) (sortStrings_sorted _)

theorem mem_keptNames {s : String} {medications : List Medication} :
    s ∈ keptNames medications ↔
      s ∈ medications.filterMap Medication.name ∧ s ≠ "" := by
  simp only [keptNames, List.mem_filterMap]
  constructor
  · rintro ⟨m, hm, hs⟩
    rcases hname : m.name with _ | t
    · rw [hname] at hs; cases hs
    · rw [hname] at hs
      by_cases ht : t = ""
      · simp [ht] at hs
      · simp only [if_neg ht] at hs
        cases hs
        exact ⟨⟨m, hm, hname⟩, ht⟩
  · rintro ⟨⟨m, hm, hname⟩, hs⟩
    exact ⟨m, hm, by simp [hname, hs]⟩

theorem normalizeDrugNames_eq_of_toFinset_eq {x y : List Medication}
    (h : (x.filterMap Medication.name).toFinset = (y.filterMap Medication.name).toFinset) :
    normalizeDrugNames x = normalizeDrugNames y := by
  have hmem : ∀ s, s ∈ x.filterMap Medication.name ↔ s ∈ y.filterMap Medication.name := by
    intro s
    rw [← List.mem_toFinset, h, List.mem_toFinset]
  refine sortStrings_dedup_eq fun s => ?_
  simp only [List.mem_map]
  constructor
  · rintro ⟨t, ht, rfl⟩
    exact ⟨t, mem_keptNames.mpr ⟨(hmem t).mp (mem_keptNames.mp ht).1,
      (mem_keptNames.mp ht).2⟩, rfl⟩
  · rintro ⟨t, ht, rfl⟩
    exact ⟨t, mem_keptNames.mpr ⟨(hmem t).mpr (mem_keptNames.mp ht).1,
      (mem_keptNames.mp ht).2⟩, rfl⟩

theorem filterMap_ne_empty_eq_self {l : List String} (h : "" ∉ l) :
    (l.filterMap fun s => if s = "" then none else some s) = l := by
  induction l with
  | nil => rfl
  | cons a t ih =>
    have ha : a ≠ "" := fun hc => h (hc ▸ List.mem_cons_self a t)
    simp only [List.filterMap_cons, if_neg ha]
    rw [ih fun hc => h (List.mem_cons_of_mem a hc)]

theorem keptNames_map_some (l : List String) :
    keptNames (l.map fun s => (⟨some s⟩ : Medication)) =
      l.filterMap fun s => if s = "" then none else some s := by
  simp [keptNames, List.filterMap_map, Function.comp_def]

theorem normalizeDrugNames_mem_shape {x : List Medication} {s : String}
    (hs : s ∈ normalizeDrugNames x) : ∃ t, s = lowerStrip t := by
  have := ((sortStrings_perm _).mem_iff).mp hs
  rw [List.mem_dedup] at this
  rcases List.mem_map.mp this with ⟨t, _, rfl⟩
  exact ⟨t, rfl⟩

/-- C6 (amended): the normalization of `check_drug_interactions` is
idempotent provided no medication name consists solely of whitespace (so no
normalized name is the empty string), and any two inputs with the same set of
names yield identical `checked_drugs`, and hence identical drug-drug and
drug-effect fact lists. -/
theorem C6_drug_normalization (x : List Medication) :
    ("" ∉ normalizeDrugNames x →
      normalizeDrugNames ((normalizeDrugNames x).map fun s => (⟨some s⟩ : Medication)) =
        normalizeDrugNames x)
    ∧ (∀ (y : List Medication) (condFacts : List String → List DrugCondFact),
        (x.filterMap Medication.name).toFinset = (y.filterMap Medication.name).toFinset →
        (check_drug_interactions condFacts (.ofList x)).checked_drugs =
            (check_drug_interactions condFacts (.ofList y)).checked_drugs ∧
        (check_drug_interactions condFacts (.ofList x)).drug_drug_interactions =
            (check_drug_interactions condFacts (.ofList y)).drug_drug_interactions ∧
        (check_drug_interactions condFacts (.ofList x)).drug_effect_facts =
            (check_drug_interactions condFacts (.ofList y)).drug_effect_facts) := by
  constructor
  · intro hne
    set ns := normalizeDrugNames x with hns
    have hnodup : ns.Nodup := (sortStrings_perm _).nodup_iff.mpr (List.nodup_dedup _)
    have hsorted : List.Sorted strLe ns := sortStrings_sorted _
    have hfix : ∀ s ∈ ns, lowerStrip s = s := by
      intro s hs
      rcases normalizeDrugNames_mem_shape hs with ⟨t, rfl⟩
      exact lowerStrip_idem t
    rw [normalizeDrugNames, keptNames_map_some, filterMap_ne_empty_eq_self hne,
      List.map_congr_left hfix, List.map_id', List.dedup_eq_self.mpr hnodup,
      sortStrings_eq_of_sorted hsorted]
  · intro y condFacts h
    have hnorm := normalizeDrugNames_eq_of_toFinset_eq h
    refine ⟨?_, ?_, ?_⟩ <;> simp [check_drug_interactions, hnorm]

/-- C6 counterexample: the claimed unconditional idempotence
`normalize(normalize(x)) == normalize(x)` fails for a medication whose name
consists only of whitespace: `[\x7b"name": "  "\x7d]` normalizes to `[""]`, but
re-normalizing `[\x7b"name": ""\x7d]` drops the now-falsy empty name and yields `[]`. -/
theorem C6_counterexample :
    normalizeDrugNames ((normalizeDrugNames [⟨some "  "⟩]).map fun s => (⟨some s⟩ : Medication)) ≠
      normalizeDrugNames [⟨some "  "⟩] := by decide

/-- C6 witness: concrete inputs discharging both hypotheses of
`C6_drug_normalization`. -/
theorem C6_witness :
    "" ∉ normalizeDrugNames [⟨some "Aspirin "⟩, ⟨some "metformin"⟩] ∧
    (([⟨some "Aspirin "⟩, ⟨some "metformin"⟩] : List Medication).filterMap
        Medication.name).toFinset =
      (([⟨some "metformin"⟩, ⟨some "Aspirin "⟩, ⟨some "metformin"⟩] : List Medication).filterMap
        Medication.name).toFinset ∧
    normalizeDrugNames ((normalizeDrugNames [⟨some "Aspirin "⟩, ⟨some "metformin"⟩]).map
        fun s => (⟨some s⟩ : Medication)) =
      normalizeDrugNames [⟨some "Aspirin "⟩, ⟨some "metformin"⟩] ∧
    (check_drug_interactions (fun _ => []) (.ofList [⟨some "Aspirin "⟩, ⟨some "metformin"⟩])).checked_drugs =
      (check_drug_interactions (fun _ => [])
        (.ofList [⟨some "metformin"⟩, ⟨some "Aspirin "⟩, ⟨some "metformin"⟩])).checked_drugs :=
  ⟨by decide, by decide,
    (C6_drug_normalization _).1 (by decide),
    ((C6_drug_normalization _).2 _ _ (by decide)).1⟩

/-- C10: for every argument that is not a list, `check_drug_interactions`
returns the standardized empty response: `checked_drugs` and all three fact
lists empty and the `note` field populated. -/
theorem C10_invalid_input (condFacts : List String → List DrugCondFact)
    (v : PyMedsArg) (h : ∀ ms, v ≠ .ofList ms) :
    (check_drug_interactions condFacts v).checked_drugs = [] ∧
    (check_drug_interactions condFacts v).drug_drug_interactions = [] ∧
    (check_drug_interactions condFacts v).drug_condition_interactions = [] ∧
    (check_drug_interactions condFacts v).drug_effect_facts = [] ∧
    (check_drug_interactions condFacts v).note ≠ none := by
  cases v with
  | ofList ms => exact absurd rfl (h ms)
  | pyNone => simp [check_drug_interactions, _safe_response]
  | ofStr s => simp [check_drug_interactions, _safe_response]
  | ofInt n => simp [check_drug_interactions, _safe_response]
  | ofDict => simp [check_drug_interactions, _safe_response]

/-- C10 witness: `None` as the medications argument. -/
theorem C10_witness :
    (∀ ms, PyMedsArg.pyNone ≠ .ofList ms) ∧
    (check_drug_interactions (fun _ => []) .pyNone).checked_drugs = [] ∧
    (check_drug_interactions (fun _ => []) .pyNone).drug_drug_interactions = [] ∧
    (check_drug_interactions (fun _ => []) .pyNone).drug_condition_interactions = [] ∧
    (check_drug_interactions (fun _ => []) .pyNone).drug_effect_facts = [] ∧
    (check_drug_interactions (fun _ => []) .pyNone).note ≠ none :=
  ⟨fun _ h => PyMedsArg.noConfusion h,
    C10_invalid_input (fun _ => []) .pyNone fun _ h => PyMedsArg.noConfusion h⟩

/-! Embedding of `app/knowledge_graph/wearables_graph.py`.  Python floats are
embedded as exact rationals (the arithmetic here is mean, difference, quotient
and comparison on small decimal data).  Display strings that interpolate
floats are kept symbolic in the small `FieldVal` / `Trend` types below, whose
constructors record the exact f-string each one renders to. -/

/-- Python truthiness of an optional string (`None` and `""` are falsy). -/
def truthyStr : Option String → Bool
  | none => false
  | some s => s ≠ ""

/-- Python `a or b` for an optional string `a` and a string default `b`. -/
def pyOrStr (a : Option String) (b : String) : String :=
  if truthyStr a then a.getD b else b

/-- Python `a or b` for two optional strings. -/
def pyOrOpt (a b : Option String) : Option String :=
  if truthyStr a then a else b

/-- One element of the `readings` list handed to `_summarize_metric`
(a dict with `value` and `timestamp` keys, each possibly null). -/
structure Reading where
  value : Option String
  timestamp : Option String
deriving DecidableEq

/-- One element of the `dated_readings` list built by `_summarize_metric`. -/
structure DatedReading where
  date : String
  value : String
deriving DecidableEq

/-- Return value of `_compute_numeric_trend` / `_compute_string_trend`.
Constructor-to-string mapping (f-string formatting of the percentage, which
Python rounds to 1 decimal for display, is kept symbolic with the exact
percentage as payload):
`monitoring` = "monitoring ongoing — more readings needed",
`stable` = "stable",
`increasing pct` = "increasing (pct% rise over recorded period)",
`decreasing pct` = "decreasing (pct% drop over recorded period)",
`changed` = "changed between readings". -/
inductive Trend where
  | monitoring
  | stable
  | increasing (pct : ℚ)
  | decreasing (pct : ℚ)
  | changed
deriving DecidableEq

/-- Display fields of a metric summary that interpolate computed floats.
`str s` is the literal string `s`; `numWithUnit q u` renders
`f"\x7bq\x7d \x7bu\x7d".strip()`; `bpPair s d u` renders `f"\x7bs\x7d/\x7bd\x7d \x7bu\x7d".strip()`. -/
inductive FieldVal where
  | str (s : String)
  | numWithUnit (q : ℚ) (unit : String)
  | bpPair (sys dia : ℚ) (unit : String)
deriving DecidableEq

/-- Return shape of `_summarize_metric` (the nested `time_range` dict is
flattened into its two keys). -/
structure MetricSummary where
  metric : Option String
  type : Option String
  unit : Option String
  normal_range : String
  latest_value : String
  previous_value : String
  average_value : FieldVal
  min_value : FieldVal
  max_value : FieldVal
  trend : Trend
  readings_count : ℕ
  readings : List DatedReading
  time_range_start : Option String
  time_range_end : Option String
deriving DecidableEq

/-- Numeric value of a digit run (helper for the float literal parser). -/
def digitsVal (l : List Char) : ℕ :=
  l.foldl (fun acc c => acc * 10 + (c.toNat - 48)) 0

/-- Syntactic phase of the float literal parser: sign, integer digits and
fraction digits, or `invalid` where Python `float()` raises `ValueError`. -/
inductive FloatParse where
  | invalid
  | intOnly (neg : Bool) (ip : List Char)
  | withFrac (neg : Bool) (ip frac : List Char)
deriving DecidableEq

/-- Recognise `[sign] digits [. digits]` surrounded by optional whitespace. -/
def parseFloatSyntax (s : String) : FloatParse :=
  let l := stripList s.data
  let signed : Bool × List Char :=
    match l with
    | '-' :: t => (true, t)
    | '+' :: t => (false, t)
    | _ => (false, l)
  let ip := signed.2.takeWhile Char.isDigit
  let rest := signed.2.dropWhile Char.isDigit
  match rest with
  | [] => if ip = [] then .invalid else .intOnly signed.1 ip
  | '.' :: frac =>
    if frac.all Char.isDigit ∧ (ip ≠ [] ∨ frac ≠ []) then .withFrac signed.1 ip frac
    else .invalid
  | _ => .invalid

/-- Numeric phase: the rational value of a parsed float literal. -/
def floatVal : FloatParse → Option ℚ
  | .invalid => none
  | .intOnly neg ip => some ((if neg then -1 else 1) * digitsVal ip)
  | .withFrac neg ip frac =>
    some ((if neg then -1 else 1) * ((digitsVal ip : ℚ) + (digitsVal frac : ℚ) / (10 ^ frac.length)))

/-- Python `float(v)` on the decimal literals stored by this system:
optional sign, digits, optional fractional part, surrounded by optional
whitespace.  (Exponent, infinity and nan forms never occur in the wearable
data and are not modelled.)  Returns `none` where `float()` raises
`ValueError`. -/
def parseFloatQ (s : String) : Option ℚ := floatVal (parseFloatSyntax s)

/-- Python `v.split(c)` on a character list. -/
def splitOnChar (c : Char) : List Char → List (List Char)
  | [] => [[]]
  | a :: t =>
    if a = c then [] :: splitOnChar c t
    else
      match splitOnChar c t with
      | [] => [[a]]
      | h :: r => (a :: h) :: r

/-- `_extract_numeric_values`: plain numeric values; skips `"X/Y"` blood
pressure strings and unparsable strings. -/
def _extract_numeric_values (raw_values : List String) : List ℚ :=
  raw_values.filterMap fun v =>
    let v' := stripStr v
    if v'.data.contains '/' then none else parseFloatQ v'

/-- `_extract_bp_systolic`: first component of `"X/Y"` readings. -/
def _extract_bp_systolic (raw_values : List String) : List ℚ :=
  raw_values.filterMap fun v =>
    let v' := stripStr v
    if v'.data.contains '/' then parseFloatQ ⟨(splitOnChar '/' v'.data).headI⟩ else none

/-- `_extract_bp_diastolic`: second component of `"X/Y"` readings (the
`"/" in v` guard guarantees the split has a second part). -/
def _extract_bp_diastolic (raw_values : List String) : List ℚ :=
  raw_values.filterMap fun v =>
    let v' := stripStr v
    if v'.data.contains '/' then parseFloatQ ⟨(splitOnChar '/' v'.data).getD 1 []⟩
    else none

/-- `_compute_numeric_trend`: trend over chronologically ordered numeric
values.  The percentage payload carries the exact value of
`abs(diff / first) * 100` computed by the source. -/
def _compute_numeric_trend (values : List ℚ) : Trend :=
  if values.length < 2 then .monitoring
  else
    let first := values.headI
    let last := values.getLastD 0
    if first = 0 then .monitoring
    else
      let diff := last - first
      let pct := |diff / first| * 100
      if pct < 2 then .stable
      else if 0 < diff then .increasing pct
      else .decreasing pct

/-- `_compute_string_trend`: equality check between first and last reading. -/
def _compute_string_trend (values : List String) : Trend :=
  if values.length < 2 then .monitoring
  else if values.headI = values.getLastD "" then .stable
  else .changed

/-- `_clean_timestamp` on a string argument. -/
def _clean_timestamp (ts : String) : String :=
  if ts = "" ∨ ts = "None" ∨ ts = "null" then "unknown date" else ⟨ts.data.take 10⟩

/-- `_clean_timestamp` on a possibly-null argument (the `time_range` calls). -/
def _clean_timestamp_opt : Option String → String
  | none => "unknown date"
  | some t => _clean_timestamp t

/-- Python `round(q, 1)` (round half up on exact rationals; Python applies
round-half-even on the binary float, which agrees on the decimal data this
system stores). -/
def roundTo1 (q : ℚ) : ℚ := (round (q * 10) : ℤ) / 10

/-- Arithmetic mean (`statistics.mean`) of a non-empty list; on the empty
list `statistics.mean` raises `StatisticsError`, which the embedding checks
before calling this (the `.error` branch of `_summarize_metric`). -/
def meanQ (l : List ℚ) : ℚ := l.sum / l.length

/-- Sort relation used by `valid_readings.sort(key=lambda r: r.get("timestamp", ""))`. -/
def readingLe (a b : Reading) : Prop :=
  strLe (a.timestamp.getD "") (b.timestamp.getD "")

instance : DecidableRel readingLe := fun a b =>
  inferInstanceAs (Decidable (charListLe (a.timestamp.getD "").data (b.timestamp.getD "").data = true))

/-- The timestamp sort of `_summarize_metric` (Python list.sort is a stable
ascending sort; so is insertion sort). -/
def sortReadings (l : List Reading) : List Reading := List.insertionSort readingLe l

/-- The filter `[r for r in readings if r and r.get("value") not in (None, "None", "", "null")]`
(a `none` entry models a Python-falsy element of the collected list). -/
def validReadings (readings : List (Option Reading)) : List Reading :=
  readings.filterMap fun o =>
    match o with
    | none => none
    | some r =>
      if r.value = none ∨ r.value = some "None" ∨ r.value = some "" ∨ r.value = some "null"
      then none else some r

/-- `dated_readings[-1]["value"] if dated_readings else "not recorded"`. -/
def lastValue (l : List DatedReading) : String :=
  match l.getLast? with
  | some d => d.value
  | none => "not recorded"

/-- `dated_readings[-2]["value"] if len(dated_readings) >= 2 else "not recorded"`. -/
def prevValue (l : List DatedReading) : String :=
  if 2 ≤ l.length then
    match l.reverse.get? 1 with
    | some d => d.value
    | none => "not recorded"
  else "not recorded"

/-- `_summarize_metric`: deterministic statistics for one wearable metric.
The value strings come from the Neo4j `toString()` projections, so every
field of a reading dict is a string or null.  In the blood-pressure branch
the source calls `mean(_extract_bp_diastolic(raw_values))` unguarded: when
every slash reading has an unparsable diastolic part (e.g. `"138/"`) that
list is empty and `statistics.mean` raises `StatisticsError`; `.error ()`
models that raise. -/
def _summarize_metric (metric_type metric_name unit normal_range : Option String)
    (readings : List (Option Reading)) : Except Unit (Option MetricSummary) :=
  if ¬ truthyStr metric_type ∨ readings = [] then .ok none
  else
    let valid_readings := validReadings readings
    if valid_readings = [] then .ok none
    else
      let sorted := sortReadings valid_readings
      let raw_values := sorted.map fun r => r.value.getD ""
      let timestamps := sorted.map fun r => r.timestamp
      let dated_readings := sorted.map fun r =>
        { date := _clean_timestamp (r.timestamp.getD "")
          value := stripStr ((r.value.getD "") ++ " " ++ unit.getD "") : DatedReading }
      let numeric_vals := _extract_numeric_values raw_values
      let tr_start : Option String :=
        match timestamps with
        | [] => none
        | t :: _ => some (_clean_timestamp_opt t)
      let tr_end : Option String :=
        match timestamps.getLast? with
        | none => none
        | some t => some (_clean_timestamp_opt t)
      if numeric_vals ≠ [] then
        let avg := roundTo1 (meanQ numeric_vals)
        .ok <| some
          { metric := pyOrOpt metric_name metric_type
            type := metric_type
            unit := unit
            normal_range := pyOrStr normal_range "N/A"
            latest_value := lastValue dated_readings
            previous_value := prevValue dated_readings
            average_value := .numWithUnit avg (unit.getD "")
            min_value := .numWithUnit ((numeric_vals.min?).getD 0) (unit.getD "")
            max_value := .numWithUnit ((numeric_vals.max?).getD 0) (unit.getD "")
            trend := _compute_numeric_trend numeric_vals
            readings_count := valid_readings.length
            readings := dated_readings
            time_range_start := tr_start
            time_range_end := tr_end }
      else
        let bp_systolic := _extract_bp_systolic raw_values
        if bp_systolic ≠ [] then
          let bp_diastolic := _extract_bp_diastolic raw_values
          if bp_diastolic = [] then .error ()
          else
          let avg := roundTo1 (meanQ bp_systolic)
          .ok <| some
            { metric := pyOrOpt metric_name metric_type
              type := metric_type
              unit := unit
              normal_range := pyOrStr normal_range "N/A"
              latest_value := lastValue dated_readings
              previous_value := prevValue dated_readings
              average_value := .bpPair avg (roundTo1 (meanQ bp_diastolic)) (unit.getD "")
              min_value := .numWithUnit ((bp_systolic.min?).getD 0) "systolic"
              max_value := .numWithUnit ((bp_systolic.max?).getD 0) "systolic"
              trend := _compute_numeric_trend bp_systolic
              readings_count := valid_readings.length
              readings := dated_readings
              time_range_start := tr_start
              time_range_end := tr_end }
        else
          let trend := _compute_string_trend raw_values
          .ok <| some
            { metric := pyOrOpt metric_name metric_type
              type := metric_type
              unit := unit
              normal_range := pyOrStr normal_range "N/A"
              latest_value := lastValue dated_readings
              previous_value := prevValue dated_readings
              average_value := .str (if trend = .stable then "consistent readings" else "variable readings")
              min_value := .str "N/A"
              max_value := .str "N/A"
              trend := trend
              readings_count := valid_readings.length
              readings := dated_readings
              time_range_start := tr_start
              time_range_end := tr_end }

/-- C3 (amended): for ≥2 values with non-zero first value, the trend is
`stable` iff `|last-first|/|first| < 0.02`; otherwise it is `increasing` when
`last > first` and `decreasing` when `last < first`, with percentage
`|last-first|/|first| * 100` (displayed rounded to 1 decimal). -/
theorem C3_numeric_trend (values : List ℚ) (h2 : 2 ≤ values.length)
    (hf : values.headI ≠ 0) :
    (_compute_numeric_trend values = Trend.stable ↔
      |values.getLastD 0 - values.headI| / |values.headI| < 2 / 100)
    ∧ (¬ |values.getLastD 0 - values.headI| / |values.headI| < 2 / 100 →
        (values.headI < values.getLastD 0 →
          _compute_numeric_trend values =
            Trend.increasing (|values.getLastD 0 - values.headI| / |values.headI| * 100))
        ∧ (values.getLastD 0 < values.headI →
          _compute_numeric_trend values =
            Trend.decreasing (|values.getLastD 0 - values.headI| / |values.headI| * 100))) := by
  have hlen : ¬ values.length < 2 := by omega
  set f := values.headI with hfdef
  set l := values.getLastD 0 with hldef
  have habs : |(l - f) / f| = |l - f| / |f| := abs_div _ _
  have hA : 0 < (100 : ℚ) := by norm_num
  have hiff : |l - f| / |f| * 100 < 2 ↔ |l - f| / |f| < 2 / 100 := by
    constructor <;> intro h <;> linarith
  rw [_compute_numeric_trend, if_neg hlen, if_neg hf]
  simp only [habs]
  by_cases hst : |l - f| / |f| * 100 < 2
  · rw [if_pos hst]
    exact ⟨by simp [hiff.mp hst], fun hcon => absurd (hiff.mp hst) hcon⟩
  · rw [if_neg hst]
    constructor
    · constructor
      · intro h
        split at h <;> exact Trend.noConfusion h
      · intro h
        exact absurd (hiff.mpr h) hst
    · intro _
      constructor
      · intro hlt
        rw [if_pos (by linarith : 0 < l - f)]
      · intro hlt
        rw [if_neg (by linarith : ¬ 0 < l - f)]

/-- C3 counterexample: the claimed percentage formula `abs(last-first)/first*100`
disagrees with the code when the first value is negative: on `[-10, -5]` the
code labels the trend `increasing` with percentage `50` (it computes
`abs((last-first)/first)*100`), while the claimed formula yields `-50`. -/
theorem C3_counterexample :
    _compute_numeric_trend [(-10 : ℚ), -5] = Trend.increasing 50 ∧
    |(-5 : ℚ) - (-10)| / (-10) * 100 = -50 ∧
    ((50 : ℚ) ≠ -50) := by
  refine ⟨?_, by norm_num [abs], by norm_num⟩
  rw [_compute_numeric_trend]
  norm_num [abs]

/-- C3 witness: `C3_numeric_trend` applied to the readings `[100, 110]`. -/
theorem C3_witness :
    2 ≤ ([100, 110] : List ℚ).length ∧ ([100, 110] : List ℚ).headI ≠ 0 ∧
    ((_compute_numeric_trend [100, 110] = Trend.stable ↔
      |([100, 110] : List ℚ).getLastD 0 - ([100, 110] : List ℚ).headI| /
        |([100, 110] : List ℚ).headI| < 2 / 100)
    ∧ (¬ |([100, 110] : List ℚ).getLastD 0 - ([100, 110] : List ℚ).headI| /
          |([100, 110] : List ℚ).headI| < 2 / 100 →
        (([100, 110] : List ℚ).headI < ([100, 110] : List ℚ).getLastD 0 →
          _compute_numeric_trend [100, 110] =
            Trend.increasing (|([100, 110] : List ℚ).getLastD 0 - ([100, 110] : List ℚ).headI| /
              |([100, 110] : List ℚ).headI| * 100))
        ∧ (([100, 110] : List ℚ).getLastD 0 < ([100, 110] : List ℚ).headI →
          _compute_numeric_trend [100, 110] =
            Trend.decreasing (|([100, 110] : List ℚ).getLastD 0 - ([100, 110] : List ℚ).headI| /
              |([100, 110] : List ℚ).headI| * 100)))) :=
  ⟨by decide, by decide, C3_numeric_trend [100, 110] (by decide) (by decide)⟩

theorem validReadings_nil : validReadings [] = [] := rfl

theorem extract_numeric_singleton (v : String) :
    _extract_numeric_values [v] = [] ∨ ∃ q, _extract_numeric_values [v] = [q] := by
  simp only [_extract_numeric_values, List.filterMap_cons, List.filterMap_nil]
  rcases h : (if (stripStr v).data.contains '/' then none else parseFloatQ (stripStr v)) with _ | q
  · left; rfl
  · right; exact ⟨q, rfl⟩

theorem extract_bp_singleton (v : String) :
    _extract_bp_systolic [v] = [] ∨ ∃ q, _extract_bp_systolic [v] = [q] := by
  simp only [_extract_bp_systolic, List.filterMap_cons, List.filterMap_nil]
  rcases h : (if (stripStr v).data.contains '/' then
      parseFloatQ ⟨(splitOnChar '/' (stripStr v).data).headI⟩ else none) with _ | q
  · left; rfl
  · right; exact ⟨q, rfl⟩

theorem trend_numeric_singleton (q : ℚ) : _compute_numeric_trend [q] = Trend.monitoring := rfl

theorem trend_numeric_nil : _compute_numeric_trend [] = Trend.monitoring := rfl

theorem trend_string_singleton (v : String) : _compute_string_trend [v] = Trend.monitoring := rfl

/-- C7 (amended): a metric whose readings all fail the validity filter yields
no summary entry at all.  A metric with exactly one valid reading either
raises `StatisticsError` — when the reading is a slash value whose systolic
part parses but whose diastolic part does not (e.g. `"138/"`), so
`statistics.mean` is applied to an empty diastolic list — or yields a summary
whose `latest_value` is that reading's display value, whose `trend` carries
the "monitoring ongoing — more readings needed" sentinel and whose
`previous_value` is "not recorded", but whose `average_value` is a computed
value (the rounded single-reading numeric or systolic/diastolic average, or
the string-branch "variable readings"), not the monitoring sentinel. -/
theorem C7_summarize_filtered (mt mn u nr : Option String)
    (readings : List (Option Reading)) :
    (validReadings readings = [] → _summarize_metric mt mn u nr readings = .ok none)
    ∧ (∀ r, validReadings readings = [r] → truthyStr mt = true →
        (_extract_numeric_values [r.value.getD ""] = [] ∧
          _extract_bp_systolic [r.value.getD ""] ≠ [] ∧
          _extract_bp_diastolic [r.value.getD ""] = [] ∧
          _summarize_metric mt mn u nr readings = .error ()) ∨
        (∃ s, _summarize_metric mt mn u nr readings = .ok (some s) ∧
          s.latest_value = stripStr ((r.value.getD "") ++ " " ++ u.getD "") ∧
          s.trend = Trend.monitoring ∧
          s.previous_value = "not recorded" ∧
          (s.average_value = FieldVal.str "variable readings" ∨
            ∀ t, s.average_value ≠ FieldVal.str t))) := by
  constructor
  · intro h
    simp [_summarize_metric, h]
  · intro r hval hmt
    have hne : readings ≠ [] := by
      intro h0
      rw [h0, validReadings_nil] at hval
      exact List.noConfusion hval
    rw [_summarize_metric, if_neg (by simp [hmt, hne])]
    simp only [hval, List.map_cons, List.map_nil]
    rw [if_neg (by simp : ¬ ([r] : List Reading) = [])]
    have hsort : sortReadings [r] = [r] := rfl
    rw [hsort]
    simp only [List.map_cons, List.map_nil]
    rcases extract_numeric_singleton (r.value.getD "") with hn | ⟨q, hn⟩
    · rw [hn]
      rw [if_neg (by simp)]
      rcases extract_bp_singleton (r.value.getD "") with hb | ⟨p, hb⟩
      · rw [hb]
        rw [if_neg (by simp)]
        right
        refine ⟨_, rfl, rfl, ?_, rfl, ?_⟩
        · exact trend_string_singleton (r.value.getD "")
        · left
          rfl
      · rw [hb]
        rw [if_pos (by simp)]
        rcases hd : _extract_bp_diastolic [r.value.getD ""] with _ | ⟨d, ds⟩
        · rw [if_pos rfl]
          left
          exact ⟨rfl, by simp, rfl, rfl⟩
        · rw [if_neg (by simp : ¬ (d :: ds = []))]
          right
          refine ⟨_, rfl, rfl, ?_, rfl, ?_⟩
          · exact trend_numeric_singleton p
          · right
            intro t h
            exact FieldVal.noConfusion h
    · rw [hn]
      rw [if_pos (by simp)]
      right
      refine ⟨_, rfl, rfl, ?_, rfl, ?_⟩
      · exact trend_numeric_singleton q
      · right
        intro t h
        exact FieldVal.noConfusion h

theorem parseFloatQ_72 : parseFloatQ "72" = some 72 := by
  rw [parseFloatQ, show parseFloatSyntax "72" = .intOnly false ['7', '2'] from by decide]
  rw [floatVal]
  norm_num [show digitsVal ['7', '2'] = 72 from by decide]

theorem extract_numeric_72 : _extract_numeric_values ["72"] = [72] := by
  simp only [_extract_numeric_values, List.filterMap_cons, List.filterMap_nil]
  rw [if_neg (by decide : ¬ (stripStr "72").data.contains '/' = true)]
  rw [show stripStr "72" = "72" from by decide, parseFloatQ_72]

/-- C7 counterexample: a heart-rate metric with exactly one valid reading
`"72"` yields a summary whose `trend` carries the monitoring sentinel but
whose `average_value` is the computed single-reading average
`72 bpm` — not the "monitoring ongoing" sentinel the claim requires for
"every trend and average field". -/
theorem C7_counterexample :
    (∃ s, _summarize_metric (some "heart_rate") (some "Heart Rate") (some "bpm") (some "60-100")
        [some ⟨some "72", some "2026-02-08T08:00:00Z"⟩] = .ok (some s) ∧
      s.trend = Trend.monitoring ∧
      s.average_value = FieldVal.numWithUnit 72 "bpm") ∧
    (∀ t, FieldVal.numWithUnit (72 : ℚ) "bpm" ≠ FieldVal.str t) := by
  have heval : _summarize_metric (some "heart_rate") (some "Heart Rate") (some "bpm")
      (some "60-100") [some ⟨some "72", some "2026-02-08T08:00:00Z"⟩] =
      .ok (some
        { metric := some "Heart Rate"
          type := some "heart_rate"
          unit := some "bpm"
          normal_range := "60-100"
          latest_value := "72 bpm"
          previous_value := "not recorded"
          average_value := .numWithUnit 72 "bpm"
          min_value := .numWithUnit 72 "bpm"
          max_value := .numWithUnit 72 "bpm"
          trend := Trend.monitoring
          readings_count := 1
          readings := [⟨"2026-02-08", "72 bpm"⟩]
          time_range_start := some "2026-02-08"
          time_range_end := some "2026-02-08" }) := by
    rw [_summarize_metric, if_neg (by decide)]
    simp only [show validReadings [some (⟨some "72", some "2026-02-08T08:00:00Z"⟩ : Reading)] =
      [⟨some "72", some "2026-02-08T08:00:00Z"⟩] from by decide]
    rw [if_neg (by decide : ¬ ([(⟨some "72", some "2026-02-08T08:00:00Z"⟩ : Reading)] = []))]
    simp only [show sortReadings [(⟨some "72", some "2026-02-08T08:00:00Z"⟩ : Reading)] =
      [⟨some "72", some "2026-02-08T08:00:00Z"⟩] from by decide]
    simp only [List.map_cons, List.map_nil, Option.getD_some]
    rw [extract_numeric_72]
    rw [if_pos (by decide : ¬ ([(72 : ℚ)] = []))]
    congr 2
    refine MetricSummary.mk.injEq .. ▸ ?_
    norm_num [pyOrOpt, pyOrStr, truthyStr, lastValue, prevValue, roundTo1, meanQ,
      _compute_numeric_trend, _clean_timestamp, _clean_timestamp_opt, stripStr]
    refine ⟨by decide, by decide, by decide, ?_, by decide⟩
    decide
  exact ⟨⟨_, heval, rfl, rfl⟩, fun t h => FieldVal.noConfusion h⟩

/-- C7 witness: `C7_summarize_filtered` instantiated at a one-reading
heart-rate metric (the non-raising disjunct). -/
theorem C7_witness :
    validReadings [some (⟨some "72", some "2026-02-08T08:00:00Z"⟩ : Reading)] =
      [⟨some "72", some "2026-02-08T08:00:00Z"⟩] ∧
    truthyStr (some "heart_rate") = true ∧
    ((_extract_numeric_values ["72"] = [] ∧
        _extract_bp_systolic ["72"] ≠ [] ∧
        _extract_bp_diastolic ["72"] = [] ∧
        _summarize_metric (some "heart_rate") (some "Heart Rate") (some "bpm") (some "60-100")
          [some ⟨some "72", some "2026-02-08T08:00:00Z"⟩] = .error ()) ∨
      (∃ s, _summarize_metric (some "heart_rate") (some "Heart Rate") (some "bpm") (some "60-100")
          [some ⟨some "72", some "2026-02-08T08:00:00Z"⟩] = .ok (some s) ∧
        s.latest_value = stripStr ("72" ++ " " ++ "bpm") ∧
        s.trend = Trend.monitoring ∧
        s.previous_value = "not recorded" ∧
        (s.average_value = FieldVal.str "variable readings" ∨
          ∀ t, s.average_value ≠ FieldVal.str t))) :=
  ⟨by decide, rfl,
    (C7_summarize_filtered (some "heart_rate") (some "Heart Rate") (some "bpm") (some "60-100")
      [some ⟨some "72", some "2026-02-08T08:00:00Z"⟩]).2
      ⟨some "72", some "2026-02-08T08:00:00Z"⟩ (by decide) rfl⟩

/-! Embedding of `app/llm/ollama_client.py` (the prompt-preparation part of
`call_ollama`; the HTTP call itself is outside the embedding). -/

/-- Python `b.index(a)` / `a in b` on strings: index of the first position
of `l` at which `pat` starts, if any. -/
def indexOfSub (pat : List Char) : List Char → Option ℕ
  | [] => if pat.isPrefixOf ([] : List Char) then some 0 else none
  | c :: t => if pat.isPrefixOf (c :: t) then some 0 else (indexOfSub pat t).map (· + 1)

/-- `MAX_PROMPT_CHARS = 8000`. -/
def MAX_PROMPT_CHARS : ℕ := 8000

/-- `literature_marker` in `_smart_truncate`. -/
def literature_marker : List Char := "RELEVANT MEDICAL LITERATURE".data

/-- `guidelines_marker` in `_smart_truncate`. -/
def guidelines_marker : List Char := "USER QUESTION".data

/-- The fixed replacement text `_smart_truncate` splices between the kept
prefix and suffix. -/
def truncation_placeholder : List Char :=
  ("========================\nRELEVANT MEDICAL LITERATURE\n========================\n[Truncated to fit context window]\n\n").data

/-- `_smart_truncate`: keep everything before the literature marker and from
the question marker onward; hard left-truncate when either marker is absent. -/
def _smart_truncate (prompt : List Char) (max_chars : ℕ) : List Char :=
  match indexOfSub literature_marker prompt, indexOfSub guidelines_marker prompt with
  | some i, some j => prompt.take i ++ truncation_placeholder ++ prompt.drop j
  | _, _ => prompt.take max_chars

/-- The prompt-shrinking step at the top of `call_ollama`:
`if len(prompt) > MAX_PROMPT_CHARS: prompt = _smart_truncate(prompt, MAX_PROMPT_CHARS)`. -/
def call_ollama_prompt (prompt : List Char) : List Char :=
  if MAX_PROMPT_CHARS < prompt.length then _smart_truncate prompt MAX_PROMPT_CHARS
  else prompt

theorem indexOfSub_some_iff {pat l : List Char} {i : ℕ} :
    indexOfSub pat l = some i ↔
      (pat <+: l.drop i ∧ ∀ k < i, ¬ pat <+: l.drop k) := by
  induction l generalizing i with
  | nil =>
    rw [indexOfSub]
    by_cases hp : pat.isPrefixOf ([] : List Char) = true
    · rw [if_pos hp]
      rw [List.isPrefixOf_iff_prefix] at hp
      constructor
      · rintro h
        cases h
        exact ⟨hp, fun k hk => absurd hk (Nat.not_lt_zero k)⟩
      · rintro ⟨h1, h2⟩
        rcases Nat.eq_zero_or_pos i with rfl | hpos
        · rfl
        · exact absurd (h2 0 hpos) (not_not_intro hp)
    · rw [if_neg hp]
      rw [List.isPrefixOf_iff_prefix] at hp
      constructor
      · rintro ⟨⟩
      · rintro ⟨h1, _⟩
        rw [List.drop_nil] at h1
        exact absurd h1 hp
  | cons c t ih =>
    rw [indexOfSub]
    by_cases hp : pat.isPrefixOf (c :: t) = true
    · rw [if_pos hp]
      rw [List.isPrefixOf_iff_prefix] at hp
      constructor
      · rintro h
        cases h
        exact ⟨hp, fun k hk => absurd hk (Nat.not_lt_zero k)⟩
      · rintro ⟨h1, h2⟩
        rcases Nat.eq_zero_or_pos i with rfl | hpos
        · rfl
        · exact absurd (h2 0 hpos) (not_not_intro hp)
    · rw [if_neg hp]
      rw [List.isPrefixOf_iff_prefix] at hp
      constructor
      · intro h
        rcases Option.map_eq_some'.mp h with ⟨i', hi', rfl⟩
        rcases ih.mp hi' with ⟨h1, h2⟩
        refine ⟨h1, ?_⟩
        intro k hk
        cases k with
        | zero => simpa using hp
        | succ k' => exact h2 k' (by omega)
      · rintro ⟨h1, h2⟩
        cases i with
        | zero => exact absurd (by simpa using h1) hp
        | succ i' =>
          rw [Option.map_eq_some']
          refine ⟨i', ih.mpr ⟨h1, fun k hk => h2 (k + 1) (by omega)⟩, rfl⟩

theorem indexOfSub_none_iff {pat l : List Char} :
    indexOfSub pat l = none ↔ ∀ i, ¬ pat <+: l.drop i := by
  induction l with
  | nil =>
    rw [indexOfSub]
    by_cases hp : pat.isPrefixOf ([] : List Char) = true
    · rw [if_pos hp]
      have hp' : pat <+: [] := List.isPrefixOf_iff_prefix.mp hp
      simp only [List.drop_nil]
      constructor
      · rintro ⟨⟩
      · intro h
        exact absurd hp' (h 0)
    · rw [if_neg hp]
      have hp' : ¬ pat <+: [] := fun hc => hp (List.isPrefixOf_iff_prefix.mpr hc)
      simp only [List.drop_nil]
      constructor
      · intro _ i
        exact hp'
      · intro _
        trivial
  | cons c t ih =>
    rw [indexOfSub]
    by_cases hp : pat.isPrefixOf (c :: t) = true
    · rw [if_pos hp]
      have hp' : pat <+: c :: t := List.isPrefixOf_iff_prefix.mp hp
      constructor
      · rintro ⟨⟩
      · intro h
        exact absurd hp' (by simpa using h 0)
    · rw [if_neg hp]
      have hp' : ¬ pat <+: c :: t := fun hc => hp (List.isPrefixOf_iff_prefix.mpr hc)
      rw [Option.map_eq_none', ih]
      constructor
      · intro h i
        cases i with
        | zero => simpa using hp'
        | succ i' => exact h i'
      · intro h i
        exact h (i + 1)

theorem exists_prefix_drop_iff_infix {pat l : List Char} :
    (∃ i, pat <+: l.drop i) ↔ pat <:+: l := by
  constructor
  · rintro ⟨i, t, ht⟩
    exact ⟨l.take i, t, by rw [List.append_assoc, ht, List.take_append_drop]⟩
  · rintro ⟨s, t, hst⟩
    refine ⟨s.length, ?_⟩
    rw [← hst, List.append_assoc, List.drop_left]
    exact ⟨t, rfl⟩

/-- C4: when the prompt exceeds the 8000-character budget, `call_ollama`
truncates it: if both the literature marker and the question marker occur,
the result is the prefix before the first literature-marker occurrence, a
fixed placeholder noting truncation, and verbatim the suffix from the first
question-marker occurrence; if either marker is absent, the result is the
first 8000 characters. -/
theorem C4_truncation (prompt : List Char) (hlen : MAX_PROMPT_CHARS < prompt.length) :
    (∀ i j,
      (literature_marker <+: prompt.drop i ∧ ∀ k < i, ¬ literature_marker <+: prompt.drop k) →
      (guidelines_marker <+: prompt.drop j ∧ ∀ k < j, ¬ guidelines_marker <+: prompt.drop k) →
      call_ollama_prompt prompt =
        prompt.take i ++ truncation_placeholder ++ prompt.drop j)
    ∧ ((¬ literature_marker <:+: prompt ∨ ¬ guidelines_marker <:+: prompt) →
      call_ollama_prompt prompt = prompt.take MAX_PROMPT_CHARS) := by
  rw [call_ollama_prompt, if_pos hlen]
  constructor
  · intro i j hi hj
    rw [_smart_truncate, indexOfSub_some_iff.mpr hi, indexOfSub_some_iff.mpr hj]
  · intro h
    have h' : indexOfSub literature_marker prompt = none ∨
        indexOfSub guidelines_marker prompt = none := by
      rcases h with h | h
      · left
        rw [indexOfSub_none_iff]
        intro i hi
        exact h (Iff.mp exists_prefix_drop_iff_infix ⟨i, hi⟩)
      · right
        rw [indexOfSub_none_iff]
        intro i hi
        exact h (Iff.mp exists_prefix_drop_iff_infix ⟨i, hi⟩)
    rw [_smart_truncate]
    rcases h' with h' | h'
    · rw [h']
    · rw [h']
      rcases hcase : indexOfSub literature_marker prompt with _ | i <;> rfl

/-- C4 witness: an 8001-character prompt with no markers takes the fallback
branch of `C4_truncation`. -/
theorem C4_witness :
    MAX_PROMPT_CHARS < (List.replicate 8001 'a').length ∧
    ((∀ i j,
      (literature_marker <+: (List.replicate 8001 'a').drop i ∧
        ∀ k < i, ¬ literature_marker <+: (List.replicate 8001 'a').drop k) →
      (guidelines_marker <+: (List.replicate 8001 'a').drop j ∧
        ∀ k < j, ¬ guidelines_marker <+: (List.replicate 8001 'a').drop k) →
      call_ollama_prompt (List.replicate 8001 'a') =
        (List.replicate 8001 'a').take i ++ truncation_placeholder ++
          (List.replicate 8001 'a').drop j)
    ∧ ((¬ literature_marker <:+: List.replicate 8001 'a' ∨
        ¬ guidelines_marker <:+: List.replicate 8001 'a') →
      call_ollama_prompt (List.replicate 8001 'a') =
        (List.replicate 8001 'a').take MAX_PROMPT_CHARS)) :=
  ⟨by rw [List.length_replicate]; norm_num [MAX_PROMPT_CHARS],
    C4_truncation (List.replicate 8001 'a')
      (by rw [List.length_replicate]; norm_num [MAX_PROMPT_CHARS])⟩

/-! Embedding of `app/rag/claim_extractor.py`.  All text processing is over
`List Char`; the regular expressions of the source are implemented as
explicit character-list scanners with the same matching semantics
(leftmost match, lazy `.+?` without newlines, greedy character classes with
the one-step backtracking the concrete patterns admit). -/

/-- A claim record `\x7b"type": ..., "statement": ...\x7d`. -/
structure Claim where
  type : String
  statement : String
deriving DecidableEq

/-- Where the next closing delimiter `d` starts (index ≥ 1 into the list),
provided no newline intervenes — the search for the lazy `(.+?)` body of the
markdown regexes `\*\*(.+?)\*\*`, `\*(.+?)\*` and a backtick pair. -/
def closeIdx (d : List Char) : List Char → Option ℕ
  | [] => none
  | c :: tl =>
    if c = '\n' then none
    else if d.isPrefixOf tl then some 1
    else (closeIdx d tl).map (· + 1)

/-- One `re.sub(open (.+?) close, group 1)` pass of `_strip_markdown`, for the
delimiter `dh :: dt` used as both opener and closer.  The fuel argument only
bounds the recursion depth (each step strictly shortens the text, so the
`l.length + 1` supplied by `subDelim` never runs out); it keeps the
definition structurally recursive and hence kernel-evaluable. -/
def subDelimAux (dh : Char) (dt : List Char) : ℕ → List Char → List Char
  | 0, l => l
  | _ + 1, [] => []
  | fuel + 1, c :: tl =>
    if (dh :: dt).isPrefixOf (c :: tl) then
      match closeIdx (dh :: dt) ((c :: tl).drop (dh :: dt).length) with
      | some j =>
        ((c :: tl).drop (dh :: dt).length).take j ++
          subDelimAux dh dt fuel (((c :: tl).drop (dh :: dt).length).drop (j + (dh :: dt).length))
      | none => c :: subDelimAux dh dt fuel tl
    else c :: subDelimAux dh dt fuel tl

/-- One markdown-substitution pass. -/
def subDelim (dh : Char) (dt : List Char) (l : List Char) : List Char :=
  subDelimAux dh dt (l.length + 1) l

/-- `_strip_markdown`: remove bold, then italic, then inline-code wrappers. -/
def _strip_markdown (text : List Char) : List Char :=
  subDelim '`' [] (subDelim '*' [] (subDelim '*' ['*'] text))

/-- Python `str.splitlines()` (modelled for the `\n`, `\r\n` and `\r`
terminators that occur in this system's text). -/
def splitLinesAux : ℕ → List Char → List Char → List (List Char)
  | 0, cur, _ => [cur.reverse]
  | _ + 1, cur, [] => [cur.reverse]
  | fuel + 1, cur, c :: tl =>
    if c = '\n' then
      if tl = [] then [cur.reverse]
      else cur.reverse :: splitLinesAux fuel [] tl
    else if c = '\r' then
      match tl with
      | '\n' :: tl2 =>
        if tl2 = [] then [cur.reverse]
        else cur.reverse :: splitLinesAux fuel [] tl2
      | [] => [cur.reverse]
      | c2 :: tl3 => cur.reverse :: splitLinesAux fuel [] (c2 :: tl3)
    else splitLinesAux fuel (c :: cur) tl

/-- Python `str.splitlines()`. -/
def splitLines (l : List Char) : List (List Char) :=
  match l with
  | [] => []
  | l => splitLinesAux (l.length + 1) [] l

/-- The line pattern `^-\s+([A-Z]+):\s+(.+)$` of `_extract_dash_based_claims`
applied to one stripped line, with the typed-claim post-processing. -/
def parseDashLine (line : List Char) : Option Claim :=
  match stripList line with
  | '-' :: rest =>
    if rest.takeWhile isPySpace = [] then none
    else
      let rest2 := rest.dropWhile isPySpace
      let ups := rest2.takeWhile Char.isUpper
      if ups = [] then none
      else
        match rest2.dropWhile Char.isUpper with
        | ':' :: rest4 =>
          match rest4 with
          | [] => none
          | c :: rest5 =>
            if isPySpace c ∧ rest5 ≠ [] then
              let t : String := ⟨ups.map lowerChar⟩
              some
                { type :=
                    if t = "risk" ∨ t = "monitoring" ∨ t = "warning" ∨ t = "recommendation"
                    then t else "general"
                  statement := ⟨stripList (rest4.dropWhile isPySpace)⟩ }
            else none
        | _ => none
  | _ => none

/-- `_extract_dash_based_claims`. -/
def _extract_dash_based_claims (text : List Char) : List Claim :=
  (splitLines text).filterMap parseDashLine

/-- Case-insensitive literal matcher: `w` (given lowercase) against the head
of `l`; returns the rest of `l` on success. -/
def matchLitCI : List Char → List Char → Option (List Char)
  | [], l => some l
  | _ :: _, [] => none
  | w :: ws, c :: cs => if lowerChar c = w then matchLitCI ws cs else none

/-- `\s+`. -/
def matchWs1 (l : List Char) : Option (List Char) :=
  if l.takeWhile isPySpace = [] then none else some (l.dropWhile isPySpace)

/-- `\s*`. -/
def matchWs0 (l : List Char) : List Char := l.dropWhile isPySpace

/-- `s?` (case-insensitive; the concrete patterns admit no backtracking into
this optional character). -/
def matchOptS (l : List Char) : List Char :=
  match l with
  | c :: t => if lowerChar c = 's' then t else c :: t
  | [] => []

/-- `key\s+considerations?\s*:`. -/
def matchP1 (l : List Char) : Option (List Char) :=
  (matchLitCI "key".data l).bind fun r1 =>
  (matchWs1 r1).bind fun r2 =>
  (matchLitCI "consideration".data r2).bind fun r3 =>
  match matchWs0 (matchOptS r3) with
  | ':' :: r6 => some r6
  | _ => none

/-- `what\s+to\s+monitor\s*:`. -/
def matchP2 (l : List Char) : Option (List Char) :=
  (matchLitCI "what".data l).bind fun r1 =>
  (matchWs1 r1).bind fun r2 =>
  (matchLitCI "to".data r2).bind fun r3 =>
  (matchWs1 r3).bind fun r4 =>
  (matchLitCI "monitor".data r4).bind fun r5 =>
  match matchWs0 r5 with
  | ':' :: r6 => some r6
  | _ => none

/-- `when\s+to\s+seek\s+medical\s+help\s*:`. -/
def matchP3 (l : List Char) : Option (List Char) :=
  (matchLitCI "when".data l).bind fun r1 =>
  (matchWs1 r1).bind fun r2 =>
  (matchLitCI "to".data r2).bind fun r3 =>
  (matchWs1 r3).bind fun r4 =>
  (matchLitCI "seek".data r4).bind fun r5 =>
  (matchWs1 r5).bind fun r6 =>
  (matchLitCI "medical".data r6).bind fun r7 =>
  (matchWs1 r7).bind fun r8 =>
  (matchLitCI "help".data r8).bind fun r9 =>
  match matchWs0 r9 with
  | ':' :: r10 => some r10
  | _ => none

/-- `safety\s+notes?\s*:`. -/
def matchP4 (l : List Char) : Option (List Char) :=
  (matchLitCI "safety".data l).bind fun r1 =>
  (matchWs1 r1).bind fun r2 =>
  (matchLitCI "note".data r2).bind fun r3 =>
  match matchWs0 (matchOptS r3) with
  | ':' :: r6 => some r6
  | _ => none

/-- The alternation of the four section-header patterns, tried in source
order at one position. -/
def matchAnyHeader (l : List Char) : Option (List Char) :=
  match matchP1 l with
  | some r => some r
  | none =>
    match matchP2 l with
    | some r => some r
    | none =>
      match matchP3 l with
      | some r => some r
      | none => matchP4 l

theorem matchLitCI_length {w l r : List Char} (h : matchLitCI w l = some r) :
    r.length + w.length = l.length := by
  induction w generalizing l with
  | nil =>
    rw [matchLitCI] at h
    cases h
    simp
  | cons a ws ih =>
    cases l with
    | nil => exact absurd h (by rw [matchLitCI]; simp)
    | cons c cs =>
      rw [matchLitCI] at h
      by_cases hc : lowerChar c = a
      · rw [if_pos hc] at h
        have := ih h
        simp only [List.length_cons]
        omega
      · rw [if_neg hc] at h
        cases h

theorem matchWs1_length {l r : List Char} (h : matchWs1 l = some r) :
    r.length < l.length := by
  rw [matchWs1] at h
  by_cases hw : l.takeWhile isPySpace = []
  · rw [if_pos hw] at h
    cases h
  · rw [if_neg hw] at h
    cases h
    have h1 : (l.takeWhile isPySpace).length + (l.dropWhile isPySpace).length = l.length := by
      rw [← List.length_append, List.takeWhile_append_dropWhile]
    have h2 : 0 < (l.takeWhile isPySpace).length := List.length_pos.mpr hw
    omega

theorem matchWs0_length (l : List Char) : (matchWs0 l).length ≤ l.length :=
  (List.dropWhile_sublist _).length_le

theorem matchOptS_length (l : List Char) : (matchOptS l).length ≤ l.length := by
  cases l with
  | nil => simp [matchOptS]
  | cons c t =>
    by_cases hc : lowerChar c = 's'
    · simp [matchOptS, hc]
    · simp [matchOptS, hc]

theorem colon_case_length {l r : List Char}
    (h : (match l with | ':' :: r => some r | _ => none) = some r) :
    r.length < l.length := by
  split at h
  · injection h with h'
    subst h'
    simp
  · cases h

theorem matchP1_length {l r : List Char} (h : matchP1 l = some r) : r.length < l.length := by
  rw [matchP1] at h
  rcases Option.bind_eq_some.mp h with ⟨r1, h1, h⟩
  rcases Option.bind_eq_some.mp h with ⟨r2, h2, h⟩
  rcases Option.bind_eq_some.mp h with ⟨r3, h3, h⟩
  have l1 := matchLitCI_length h1
  have l2 := matchWs1_length h2
  have l3 := matchLitCI_length h3
  have l4 := matchOptS_length r3
  have l5 := matchWs0_length (matchOptS r3)
  have l6 := colon_case_length h
  omega

theorem matchP2_length {l r : List Char} (h : matchP2 l = some r) : r.length < l.length := by
  rw [matchP2] at h
  rcases Option.bind_eq_some.mp h with ⟨r1, h1, h⟩
  rcases Option.bind_eq_some.mp h with ⟨r2, h2, h⟩
  rcases Option.bind_eq_some.mp h with ⟨r3, h3, h⟩
  rcases Option.bind_eq_some.mp h with ⟨r4, h4, h⟩
  rcases Option.bind_eq_some.mp h with ⟨r5, h5, h⟩
  have l1 := matchLitCI_length h1
  have l2 := matchWs1_length h2
  have l3 := matchLitCI_length h3
  have l4 := matchWs1_length h4
  have l5 := matchLitCI_length h5
  have l6 := matchWs0_length r5
  have l7 := colon_case_length h
  omega

theorem matchP3_length {l r : List Char} (h : matchP3 l = some r) : r.length < l.length := by
  rw [matchP3] at h
  rcases Option.bind_eq_some.mp h with ⟨r1, h1, h⟩
  rcases Option.bind_eq_some.mp h with ⟨r2, h2, h⟩
  rcases Option.bind_eq_some.mp h with ⟨r3, h3, h⟩
  rcases Option.bind_eq_some.mp h with ⟨r4, h4, h⟩
  rcases Option.bind_eq_some.mp h with ⟨r5, h5, h⟩
  rcases Option.bind_eq_some.mp h with ⟨r6, h6, h⟩
  rcases Option.bind_eq_some.mp h with ⟨r7, h7, h⟩
  rcases Option.bind_eq_some.mp h with ⟨r8, h8, h⟩
  rcases Option.bind_eq_some.mp h with ⟨r9, h9, h⟩
  have l1 := matchLitCI_length h1
  have l2 := matchWs1_length h2
  have l3 := matchLitCI_length h3
  have l4 := matchWs1_length h4
  have l5 := matchLitCI_length h5
  have l6 := matchWs1_length h6
  have l7 := matchLitCI_length h7
  have l8 := matchWs1_length h8
  have l9 := matchLitCI_length h9
  have l10 := matchWs0_length r9
  have l11 := colon_case_length h
  omega

theorem matchP4_length {l r : List Char} (h : matchP4 l = some r) : r.length < l.length := by
  rw [matchP4] at h
  rcases Option.bind_eq_some.mp h with ⟨r1, h1, h⟩
  rcases Option.bind_eq_some.mp h with ⟨r2, h2, h⟩
  rcases Option.bind_eq_some.mp h with ⟨r3, h3, h⟩
  have l1 := matchLitCI_length h1
  have l2 := matchWs1_length h2
  have l3 := matchLitCI_length h3
  have l4 := matchOptS_length r3
  have l5 := matchWs0_length (matchOptS r3)
  have l6 := colon_case_length h
  omega

theorem matchAnyHeader_length {l r : List Char} (h : matchAnyHeader l = some r) :
    r.length < l.length := by
  rw [matchAnyHeader] at h
  rcases h1 : matchP1 l with _ | r1
  · rw [h1] at h
    rcases h2 : matchP2 l with _ | r2
    · rw [h2] at h
      rcases h3 : matchP3 l with _ | r3
      · rw [h3] at h
        exact matchP4_length h
      · rw [h3] at h
        cases h
        exact matchP3_length h3
    · rw [h2] at h
      cases h
      exact matchP2_length h2
  · rw [h1] at h
    cases h
    exact matchP1_length h1

/-- Position and length of the leftmost section-header match
(`full_pattern.split` scanning). -/
def findFirstHeader (l : List Char) : Option (ℕ × ℕ) :=
  match matchAnyHeader l with
  | some rest => some (0, l.length - rest.length)
  | none =>
    match l with
    | [] => none
    | _ :: t => (findFirstHeader t).map fun p => (p.1 + 1, p.2)

theorem findFirstHeader_bounds {l : List Char} {i m : ℕ}
    (h : findFirstHeader l = some (i, m)) : 1 ≤ m ∧ i + m ≤ l.length := by
  induction l generalizing i with
  | nil =>
    rw [findFirstHeader] at h
    rcases hm : matchAnyHeader [] with _ | r
    · rw [hm] at h
      cases h
    · have := matchAnyHeader_length hm
      simp at this
  | cons c t ih =>
    rw [findFirstHeader] at h
    rcases hm : matchAnyHeader (c :: t) with _ | r
    · rw [hm] at h
      simp only [Option.map_eq_some'] at h
      rcases h with ⟨⟨i', m'⟩, hp, heq⟩
      cases heq
      have := ih hp
      simp only [List.length_cons]
      omega
    · rw [hm] at h
      cases h
      have := matchAnyHeader_length hm
      constructor
      · omega
      · simp only [List.length_cons] at *
        omega

/-- `re.split` with the capturing alternation of section headers: produces
`[preamble, match₁, between₁, match₂, ..., tail]`.  Fueled like `subDelimAux`
(`findFirstHeader_bounds` shows each step strictly shortens the text). -/
def splitPartsAux : ℕ → List Char → List (List Char)
  | 0, l => [l]
  | fuel + 1, l =>
    match findFirstHeader l with
    | none => [l]
    | some (i, m) =>
      l.take i :: (l.drop i).take m :: splitPartsAux fuel (l.drop (i + m))

/-- `re.split` with the capturing header alternation. -/
def splitParts (l : List Char) : List (List Char) := splitPartsAux (l.length + 1) l

/-- The `while i < len(parts) - 1` pairing loop over the split parts:
`(header, following content)` pairs. -/
def pairUp : List (List Char) → List (List Char × List Char)
  | h :: c :: rest => (h, c) :: pairUp rest
  | _ => []

/-- Substring test (Python `in` on strings). -/
def containsSub (pat l : List Char) : Bool := (indexOfSub pat l).isSome

/-- `any(w in s for w in ws)` (keywords given lowercase). -/
def containsAny (l : List Char) (ws : List String) : Bool :=
  ws.any fun w => containsSub w.data l

/-- `re.search(pattern, header)` for one section pattern: a match at any
position. -/
def searchP (m : List Char → Option (List Char)) : List Char → Bool
  | [] => (m []).isSome
  | c :: t => (m (c :: t)).isSome || searchP m t

/-- The `for pattern, ctype in section_patterns: if re.search(...)` type
lookup applied to a matched header. -/
def headerType (header : List Char) : String :=
  if searchP matchP1 header then "general"
  else if searchP matchP2 header then "monitoring"
  else if searchP matchP3 header then "warning"
  else if searchP matchP4 header then "recommendation"
  else "general"

/-- `re.split(r'(?<=[.!?])\s+', content)`: split at whitespace runs preceded
by a sentence-ending character. -/
def sentSplitAux : ℕ → List Char → List Char → List (List Char)
  | 0, cur, _ => [cur.reverse]
  | _ + 1, cur, [] => [cur.reverse]
  | fuel + 1, cur, c :: tl =>
    if isPySpace c && (match cur with
        | p :: _ => p = '.' || p = '!' || p = '?'
        | [] => false) then
      cur.reverse :: sentSplitAux fuel [] (tl.dropWhile isPySpace)
    else sentSplitAux fuel (c :: cur) tl

/-- Sentence splitting of a section content / response text. -/
def sentSplit (l : List Char) : List (List Char) := sentSplitAux (l.length + 1) [] l

/-- `_extract_bold_section_claims`. -/
def _extract_bold_section_claims (text : List Char) : List Claim :=
  let parts := splitParts text
  let pairs :=
    match parts with
    | [] => []
    | _pre :: rest => pairUp rest
  pairs.flatMap fun hc =>
    let claim_type := headerType ((stripList hc.1).map lowerChar)
    (sentSplit (stripList hc.2)).filterMap fun sentRaw =>
      let sentence := List.rdropWhile (fun ch => ch = '.') (stripList sentRaw)
      if 20 < sentence.length then some ⟨claim_type, ⟨sentence⟩⟩ else none

/-- Insertion into a Python dict rendered as an insertion-ordered association
list (reassignment keeps the original position). -/
def dictInsert (k v : List Char) : List (List Char × List Char) → List (List Char × List Char)
  | [] => [(k, v)]
  | (k', v') :: rest => if k' = k then (k', v) :: rest else (k', v') :: dictInsert k v rest

/-- The header-line pattern `^#+\s+(.+)$` of `_split_by_headers` on a
stripped line; returns the raw group 1. -/
def parseHeaderLine (line : List Char) : Option (List Char) :=
  let l := stripList line
  if l.takeWhile (fun ch => ch = '#') = [] then none
  else
    match l.dropWhile (fun ch => ch = '#') with
    | [] => none
    | c :: rest5 =>
      if isPySpace c ∧ rest5 ≠ [] then
        some
          (let d := (c :: rest5).dropWhile isPySpace
           if d ≠ [] then d else [(c :: rest5).getLastD ' '])
      else none

/-- The line loop of `_split_by_headers`: flush the buffered body into the
current section on each header line and at the end. -/
def splitByHeadersAux (sections : List (List Char × List Char)) (current : List Char)
    (buffer : List (List Char)) : List (List Char) → List (List Char × List Char)
  | [] =>
    if buffer ≠ [] then
      let section_text := stripList (List.intercalate ['\n'] buffer)
      if section_text ≠ [] then dictInsert current section_text sections else sections
    else sections
  | line :: rest =>
    match parseHeaderLine line with
    | some title =>
      let sections' :=
        if buffer ≠ [] then
          let section_text := stripList (List.intercalate ['\n'] buffer)
          if section_text ≠ [] then dictInsert current section_text sections else sections
        else sections
      splitByHeadersAux sections' (title.map lowerChar) [] rest
    | none => splitByHeadersAux sections current (buffer ++ [line]) rest

/-- `_split_by_headers`. -/
def _split_by_headers (text : List Char) : List (List Char × List Char) :=
  splitByHeadersAux [] ("unknown".data) [] (splitLines text)

/-- The numbered-item pattern `^\d+\.\s+` with the `re.sub` removal. -/
def parseNumbered (line : List Char) : Option (List Char) :=
  if line.takeWhile Char.isDigit = [] then none
  else
    match line.dropWhile Char.isDigit with
    | '.' :: rest =>
      if rest.takeWhile isPySpace = [] then none
      else some (stripList (rest.dropWhile isPySpace))
    | _ => none

/-- `_extract_bullet_points`. -/
def _extract_bullet_points (text : List Char) : List (List Char) :=
  (splitLines text).filterMap fun line0 =>
    let line := stripList line0
    match line with
    | [] => none
    | c :: _ =>
      if c = '-' ∨ c = '*' ∨ c = '•' then
        let claim := stripList (line.dropWhile fun ch => ch = '-' ∨ ch = '*' ∨ ch = '•')
        if claim = [] then none else some claim
      else
        match parseNumbered line with
        | some claim => if claim = [] then none else some claim
        | none => none

/-- `_map_section_to_type`. -/
def _map_section_to_type (sec : List Char) : String :=
  let s := sec.map lowerChar
  if containsAny s ["risk", "concern", "danger"] then "risk"
  else if containsAny s ["monitor", "watch", "track"] then "monitoring"
  else if containsAny s ["help", "urgent", "emergency", "seek"] then "warning"
  else if containsAny s ["recommend", "consider", "suggest", "safety", "note"] then "recommendation"
  else "general"

/-- `_classify_sentence`. -/
def _classify_sentence (sentence : List Char) : String :=
  let s := sentence.map lowerChar
  if containsAny s ["risk", "danger", "avoid", "contraindicated", "caution", "can cause", "may cause"]
  then "risk"
  else if containsAny s ["monitor", "track", "watch", "check", "measure", "test", "observe"]
  then "monitoring"
  else if containsAny s ["urgent", "immediately", "emergency", "seek", "call", "hospital"]
  then "warning"
  else if containsAny s ["recommend", "suggest", "consider", "should", "important", "maintain"]
  then "recommendation"
  else "general"

/-- `_extract_smart_sentences`: sentence split, length filter, classify,
cap at 15. -/
def _extract_smart_sentences (text : List Char) : List Claim :=
  ((sentSplit text).filterMap fun s0 =>
    let sentence := stripList s0
    if 15 < sentence.length ∧ sentence.length < 500 then
      some ⟨_classify_sentence sentence, ⟨sentence⟩⟩
    else none).take 15

/-- The strategy-3 section-to-claims loop in `extract_claims`. -/
def sectionsToClaims (sections : List (List Char × List Char)) : List Claim :=
  sections.flatMap fun sc =>
    (_extract_bullet_points sc.2).filterMap fun line =>
      if stripList line ≠ [] then
        some ⟨_map_section_to_type sc.1, ⟨stripList line⟩⟩
      else none

/-- Body of `extract_claims` for truthy input text. -/
def extractClaimsCore (text : List Char) : List Claim :=
  let clean_text := _strip_markdown text
  let c1 := _extract_dash_based_claims clean_text
  if c1 ≠ [] then c1
  else
    let c2 := _extract_bold_section_claims clean_text
    if c2 ≠ [] then c2
    else
      let sections := _split_by_headers clean_text
      let c3 := sectionsToClaims sections
      if sections ≠ [] ∧ c3 ≠ [] then c3
      else
        let c4 := _extract_smart_sentences clean_text
        if c4 ≠ [] then c4
        else [⟨"general", ⟨clean_text.take 200⟩⟩]

/-- `extract_claims`; the argument is `None` or a string (`if not text`
catches both `None` and `""`). -/
def extract_claims : Option (List Char) → List Claim
  | none => []
  | some text => if text = [] then [] else extractClaimsCore text

/-! Embedding of `app/rag/fact_checker.py`. -/

/-- A paper entry of the evidence context. -/
structure Paper where
  pmid : Option String
  title : Option String
  text_preview : Option String
deriving DecidableEq

/-- The patient block of the context as read by the fact checker
(medication and condition dicts each carry an optional `name`). -/
structure FCPatient where
  medications : List Medication
  conditions : List Medication
deriving DecidableEq

/-- The evidence context consumed by `verify_claim` / `verify_claims`. -/
structure FCContext where
  patient : FCPatient
  papers : List Paper
deriving DecidableEq

/-- A paper evidence hit (`_papers_evidence` output entry). -/
structure PaperHit where
  type : String
  pmid : Option String
  title : Option String
  snippet : String
deriving DecidableEq

/-- One element of a verified claim's `sources` list. -/
inductive Source where
  | kgMeds (medications : List String)
  | kgConds (conditions : List String)
  | paper (hit : PaperHit)
deriving DecidableEq

/-- Return shape of `verify_claim`. -/
structure VerifiedClaim where
  type : String
  statement : String
  verified : Bool
  sources : List Source
deriving DecidableEq

/-- `_match_any`: some non-empty token occurs (lowercased) in the lowered
text. -/
def _match_any (token_list : List String) (text : String) : Bool :=
  token_list.any fun tok =>
    tok ≠ "" && containsSub (lowerStr tok).data (lowerStr text).data

/-- `_patient_med_names`: lowered names of medications with truthy names. -/
def _patient_med_names (context : FCContext) : List String :=
  context.patient.medications.filterMap fun m =>
    match m.name with
    | some s => if s = "" then none else some (lowerStr s)
    | none => none

/-- `_patient_conditions`: lowered names of conditions with truthy names. -/
def _patient_conditions (context : FCContext) : List String :=
  context.patient.conditions.filterMap fun c =>
    match c.name with
    | some s => if s = "" then none else some (lowerStr s)
    | none => none

/-- Word characters of `re.findall(r"\w+", ...)` (ASCII range). -/
def isWordChar (c : Char) : Bool := c.isAlpha || c.isDigit || c = '_'

/-- `re.findall(r"\w+", l)`: maximal word-character runs. -/
def findWordsAux : ℕ → List Char → List Char → List (List Char)
  | 0, cur, _ => if cur = [] then [] else [cur.reverse]
  | _ + 1, cur, [] => if cur = [] then [] else [cur.reverse]
  | fuel + 1, cur, c :: t =>
    if isWordChar c then findWordsAux fuel (c :: cur) t
    else if cur = [] then findWordsAux fuel [] t
    else cur.reverse :: findWordsAux fuel [] t

/-- `re.findall(r"\w+", l)`. -/
def findWords (l : List Char) : List (List Char) := findWordsAux (l.length + 1) [] l

/-- `_papers_evidence`: papers whose title+preview contains the claim text or
one of its first five words. -/
def _papers_evidence (context : FCContext) (claim_text : String) : List PaperHit :=
  context.papers.filterMap fun p =>
    let title := p.title.getD ""
    let preview := (p.text_preview.getD "").data.take 1000
    let combined := (title.data ++ '\n' :: preview).map lowerChar
    if containsSub (lowerStr claim_text).data combined ||
        ((findWords (lowerStr claim_text).data).take 5).any (fun w => containsSub w combined) then
      some
        { type := "paper"
          pmid := p.pmid
          title := p.title
          snippet := if preview ≠ [] then ⟨preview.take 300 ++ ("...").data⟩ else "" }
    else none

/-- `verify_claim`: augment one claim with `verified` and `sources`
(medication match, condition match, paper evidence — in source order). -/
def verify_claim (claim : Claim) (context : FCContext) : VerifiedClaim :=
  let statement := claim.statement
  let meds := _patient_med_names context
  let conds := _patient_conditions context
  let paper_hits := _papers_evidence context statement
  { type := claim.type
    statement := statement
    verified :=
      _match_any meds statement || _match_any conds statement || !paper_hits.isEmpty
    sources :=
      (if _match_any meds statement then [Source.kgMeds meds] else []) ++
      (if _match_any conds statement then [Source.kgConds conds] else []) ++
      paper_hits.map Source.paper }

/-- `verify_claims` on an already-extracted claim list.  (For a list
argument the `isinstance(claims, str)` branch is dead; the per-claim
`try/except` never fires because `verify_claim` is total, and the
`if not claims` guard agrees with mapping over the empty list.) -/
def verify_claims (claims : List Claim) (context : FCContext) : List VerifiedClaim :=
  claims.map fun c => verify_claim c context

/-- C1: `extract_claims` returns `[]` for `None` and for the empty string,
and a non-empty claim list for every non-empty input string, and (being a
total function) never raises. -/
theorem C1_extract_claims (t : List Char) :
    extract_claims none = [] ∧ extract_claims (some []) = [] ∧
    (t ≠ [] → extract_claims (some t) ≠ []) := by
  refine ⟨rfl, rfl, fun h => ?_⟩
  rw [extract_claims, if_neg h]
  simp only [extractClaimsCore]
  split_ifs with h1 h2 h3 h4
  · exact h1
  · exact h2
  · exact h3.2
  · exact h4
  · simp

/-- C1 witness: a concrete non-empty response string. -/
theorem C1_witness :
    ("hello world").data ≠ [] ∧ extract_claims (some ("hello world").data) ≠ [] :=
  ⟨by decide, (C1_extract_claims ("hello world").data).2.2 (by decide)⟩

/-- C5: verifying the extracted claims of any text against any context
yields exactly one verified claim per extracted claim (and both functions
are total, so the round trip never raises). -/
theorem C5_roundtrip (t : Option (List Char)) (context : FCContext) :
    (verify_claims (extract_claims t) context).length = (extract_claims t).length :=
  List.length_map _ _

/-- C9: a claim is verified exactly when at least one source was recorded. -/
theorem C9_verified_iff_sources (claim : Claim) (context : FCContext) :
    (verify_claim claim context).verified = true ↔
      (verify_claim claim context).sources ≠ [] := by
  rw [verify_claim]
  simp only [Bool.or_eq_true, Bool.not_eq_true', List.isEmpty_eq_false]
  by_cases h1 : _match_any (_patient_med_names context) claim.statement = true
  · simp [h1]
  · simp only [Bool.not_eq_true] at h1
    by_cases h2 : _match_any (_patient_conditions context) claim.statement = true
    · simp [h1, h2]
    · simp only [Bool.not_eq_true] at h2
      by_cases h3 : _papers_evidence context claim.statement = []
      · simp [h1, h2, h3]
      · simp [h1, h2, h3]

/-- C8 (amended): the fallback sentence classifier implements exactly this
keyword cascade — risk \x7brisk, danger, avoid, contraindicated, caution,
can cause, may cause\x7d; then monitoring \x7bmonitor, track, watch, check,
measure, test, observe\x7d; then warning \x7burgent, immediately, emergency,
seek, call, hospital\x7d; then recommendation \x7brecommend, suggest,
consider, should, important, maintain\x7d; else general.  (The code has no
"leads to", "contact doctor", "may help" or "stay" keywords.) -/
theorem C8_classify (sentence : List Char) :
    (containsAny (sentence.map lowerChar)
        ["risk", "danger", "avoid", "contraindicated", "caution", "can cause", "may cause"] = true →
      _classify_sentence sentence = "risk")
    ∧ (containsAny (sentence.map lowerChar)
        ["risk", "danger", "avoid", "contraindicated", "caution", "can cause", "may cause"] = false →
      containsAny (sentence.map lowerChar)
        ["monitor", "track", "watch", "check", "measure", "test", "observe"] = true →
      _classify_sentence sentence = "monitoring")
    ∧ (containsAny (sentence.map lowerChar)
        ["risk", "danger", "avoid", "contraindicated", "caution", "can cause", "may cause"] = false →
      containsAny (sentence.map lowerChar)
        ["monitor", "track", "watch", "check", "measure", "test", "observe"] = false →
      containsAny (sentence.map lowerChar)
        ["urgent", "immediately", "emergency", "seek", "call", "hospital"] = true →
      _classify_sentence sentence = "warning")
    ∧ (containsAny (sentence.map lowerChar)
        ["risk", "danger", "avoid", "contraindicated", "caution", "can cause", "may cause"] = false →
      containsAny (sentence.map lowerChar)
        ["monitor", "track", "watch", "check", "measure", "test", "observe"] = false →
      containsAny (sentence.map lowerChar)
        ["urgent", "immediately", "emergency", "seek", "call", "hospital"] = false →
      containsAny (sentence.map lowerChar)
        ["recommend", "suggest", "consider", "should", "important", "maintain"] = true →
      _classify_sentence sentence = "recommendation")
    ∧ (containsAny (sentence.map lowerChar)
        ["risk", "danger", "avoid", "contraindicated", "caution", "can cause", "may cause"] = false →
      containsAny (sentence.map lowerChar)
        ["monitor", "track", "watch", "check", "measure", "test", "observe"] = false →
      containsAny (sentence.map lowerChar)
        ["urgent", "immediately", "emergency", "seek", "call", "hospital"] = false →
      containsAny (sentence.map lowerChar)
        ["recommend", "suggest", "consider", "should", "important", "maintain"] = false →
      _classify_sentence sentence = "general") := by
  refine ⟨fun h1 => ?_, fun h1 h2 => ?_, fun h1 h2 h3 => ?_,
    fun h1 h2 h3 h4 => ?_, fun h1 h2 h3 h4 => ?_⟩ <;>
    simp [_classify_sentence, h1, *]

/-- C8 counterexample: the sentence "this leads to serious complications"
contains the claimed risk keyword "leads to", yet `_classify_sentence`
returns "general" — the code's risk list has no "leads to" entry. -/
theorem C8_counterexample :
    containsSub ("leads to").data (("this leads to serious complications").data.map lowerChar) = true ∧
    _classify_sentence ("this leads to serious complications").data = "general" ∧
    ("general" : String) ≠ "risk" := by decide

/-- C8 witness: a sentence containing "risk" classifies as risk via
`C8_classify`. -/
theorem C8_witness :
    containsAny (("there is a risk of bleeding").data.map lowerChar)
      ["risk", "danger", "avoid", "contraindicated", "caution", "can cause", "may cause"] = true ∧
    _classify_sentence ("there is a risk of bleeding").data = "risk" :=
  ⟨by decide, (C8_classify ("there is a risk of bleeding").data).1 (by decide)⟩


/-!  Embedding of `app/rag/prompt_builder.py`: the prompt template segments,
the five formatting helpers, `build_medical_prompt`, and its `.strip()`-level
shape.  -/

/-- Literal template segment 1 of the `build_medical_prompt` f-string. -/
def promptSeg1 : String :=
  "\n" ++
  "You are a clinical explanation assistant.\n" ++
  "You are NOT a doctor.\n" ++
  "You do NOT diagnose diseases.\n" ++
  "You do NOT prescribe or recommend new medications.\n" ++
  "You provide educational, safety-focused explanations only.\n" ++
  "\n" ++
  "CRITICAL SAFETY RULES (MUST FOLLOW):\n" ++
  "- Use ONLY the information explicitly provided below.\n" ++
  "- Do NOT introduce new medical facts, mechanisms, or interactions.\n" ++
  "- Do NOT infer drug interactions beyond those listed.\n" ++
  "- Do NOT assume missing patient data.\n" ++
  "- ALWAYS reference the patient\x27s ACTUAL numbers — never use generic ranges alone.\n" ++
  "- ALWAYS directly answer the question asked FIRST (yes/no + brief reason).\n" ++
  "- If information is insufficient, state this clearly.\n" ++
  "- NEVER expose internal system labels like \"insufficient-data\", \"non-numeric\",\n" ++
  "  or \"N/A\" to the user — replace with plain language like \"not enough data yet\".\n" ++
  "- Your role is explanation, not decision-making.\n" ++
  "- If no research papers are provided, write ONLY:\n" ++
  "  \"No research papers available for this query.\"\n" ++
  "  Do NOT add any \"general knowledge\" or assumptions after this.\n" ++
  "- The Direct Answer must be YES or NO — pick one and stay consistent\n" ++
  "  throughout the entire response.\n" ++
  "\n" ++
  "========================\n" ++
  "PATIENT FACTS\n" ++
  "========================\n" ++
  ""

/-- Literal template segment 2 of the `build_medical_prompt` f-string. -/
def promptSeg2 : String :=
  "\n" ++
  "\n" ++
  "========================\n" ++
  "WEARABLE OBSERVATIONS (FACTS)\n" ++
  "========================\n" ++
  ""

/-- Literal template segment 3 of the `build_medical_prompt` f-string. -/
def promptSeg3 : String :=
  "\n" ++
  "\n" ++
  "========================\n" ++
  "MEDICATION SAFETY FACTS\n" ++
  "========================\n" ++
  ""

/-- Literal template segment 4 of the `build_medical_prompt` f-string. -/
def promptSeg4 : String :=
  "\n" ++
  "\n" ++
  "========================\n" ++
  "RELEVANT MEDICAL LITERATURE\n" ++
  "========================\n" ++
  "Rules: Cite ONLY papers listed below. Include journal + year.\n" ++
  "If the section below says \"No research papers available\", skip ## What the Research Says entirely.\n" ++
  "========================\n" ++
  ""

/-- Literal template segment 5 of the `build_medical_prompt` f-string. -/
def promptSeg5 : String :=
  "\n" ++
  "\n" ++
  "========================\n" ++
  "USER QUESTION\n" ++
  "========================\n" ++
  ""

/-- Template segment 6, part before the disclaimer instruction line. -/
def promptSeg6pre : String :=
  "\n" ++
  "\n" ++
  "========================\n" ++
  "RESPONSE FORMAT (MANDATORY — FOLLOW EXACTLY)\n" ++
  "========================\n" ++
  "\n" ++
  "## Direct Answer\n" ++
  "- Answer YES or NO to the question first.\n" ++
  "- In 2-3 sentences explain why, using the patient\x27s actual data.\n" ++
  "- Do NOT use generic explanations. Reference their real numbers.\n" ++
  "\n" ++
  "## Your Data This Week\n" ++
  "| Metric | Reading | Normal Range | Date |\n" ++
  "|--------|---------|--------------|------|\n" ++
  "[one row per reading, real values only, no placeholder text]\n" ++
  "\n" ++
  "\n" ++
  "\n" ++
  "## Key Considerations\n" ++
  "- Summarize the most relevant safety or health considerations.\n" ++
  "- Maximum 3 bullet points.\n" ++
  "- Stay strictly on topic — do NOT mention unrelated conditions.\n" ++
  "\n" ++
  "## What to Monitor\n" ++
  "- List specific measurable things the patient should track.\n" ++
  "- Be concrete (e.g., \"check BP every morning after waking\").\n" ++
  "\n" ++
  "## When to Seek Medical Help\n" ++
  "- Describe clear, specific situations requiring professional attention.\n" ++
  "- Use the patient\x27s actual condition and medication names.\n" ++
  "\n" ++
  "## Safety Notes\n" ++
  "- Brief, non-prescriptive safety guidance only.\n" ++
  "- Only mention medications or conditions relevant to the question.\n" ++
  "\n" ++
  "Always end with exactly this line:\n" ++
  ""

/-- The quoted disclaimer instruction line of template segment 6. -/
def disclaimerLine : String :=
  "\"Consult your healthcare provider before making any changes.\"\n" ++
  ""

/-- Template segment 6, between the disclaimer line and its last text line. -/
def promptSeg6mid : String :=
  "\n" ++
  "========================\n" ++
  "STRICT OUTPUT RULES\n" ++
  "========================\n" ++
  "- Direct Answer: ONE word first — YES or NO. Then 2 sentences max. Do NOT skip.\n" ++
  "- Data Table: real values and dates ONLY. Zero narrative text in table cells.\n" ++
  "- Research: Cite ONLY the papers provided in RELEVANT MEDICAL LITERATURE above.\n" ++
  "  Include journal name and year. If that section contains \"No research papers available\",\n" ++
  "  skip ## What the Research Says entirely. Do NOT fabricate findings.\n" ++
  "- Do NOT introduce conditions or medications not listed in Patient Facts.\n" ++
  "- Do NOT mention any metric unrelated to the question.\n" ++
  "- Do NOT add explanations inside table cells.\n" ++
  "- Do NOT leak any internal system values or labels into the response.\n" ++
  "- Do NOT use generic advice that ignores the patient\x27s actual numbers.\n" ++
  "- Maximum 2 sentences per bullet point.\n" ++
  "- EVERY section is mandatory except ## What the Research Says (skip if no papers).\n" ++
  "- Never truncate mid-sentence — shorten bullet points if needed but complete every section.\n" ++
  ""

/-- The last text line of template segment 6. -/
def promptSeg6last : String :=
  "- Keep total response concise — quality over length.\n" ++
  ""

/-- The closing separator that ends template segment 6. -/
def promptSeg6close : String :=
  "========================\n" ++
  ""

/-- Literal template segment 6 of the `build_medical_prompt` f-string
(the concatenation of its five named parts). -/
def promptSeg6 : String :=
  promptSeg6pre ++ disclaimerLine ++ promptSeg6mid ++ promptSeg6last ++ promptSeg6close

/-- `.get(key, default)` rendered into an f-string. -/
def renderGet (o : Option String) (d : String) : String := o.getD d

/-- A raw `.get(key)` rendered into an f-string (absent renders as "None"). -/
def renderVal (o : Option String) : String := o.getD "None"

/-- `demographics` block. -/
structure Demographics where
  age : Option String
  gender : Option String
  blood_type : Option String
deriving DecidableEq

/-- One condition dict. -/
structure Condition where
  name : Option String
  severity : Option String
  status : Option String
  diagnosed : Option String
deriving DecidableEq

/-- One medication dict as the prompt builder reads it. -/
structure PBMedication where
  name : Option String
  dosage : Option String
  frequency : Option String
  purpose : Option String
  treats : Option String
deriving DecidableEq

/-- One lab-result dict. -/
structure LabResult where
  name : Option String
  result : Option String
  unit : Option String
  normal_range : Option String
  status : Option String
  date : Option String
deriving DecidableEq

/-- The patient block (`none` models the falsy empty dict). -/
structure PBPatient where
  patient_id : Option String
  demographics : Option Demographics
  conditions : List Condition
  medications : List PBMedication
  lab_results : List LabResult
deriving DecidableEq

/-- One dated reading as rendered into the wearable block. -/
structure PBReading where
  date : Option String
  value : Option String
deriving DecidableEq

/-- One wearable metric dict as the prompt builder reads it. -/
structure PBWearableMetric where
  metric : Option String
  latest_value : Option String
  previous_value : Option String
  average_value : Option String
  normal_range : Option String
  trend : Option String
  readings : List PBReading
deriving DecidableEq

/-- The wearables block. -/
structure PBWearables where
  available : Bool
  metrics : List PBWearableMetric
deriving DecidableEq

/-- A drug-drug interaction fact as rendered. -/
structure PBDrugDrug where
  severity : Option String
  drugs_involved : List String
  interaction : Option String
deriving DecidableEq

/-- A drug-condition interaction fact as rendered. -/
structure PBDrugCond where
  severity : Option String
  drug : Option String
  condition : Option String
deriving DecidableEq

/-- A drug-effect fact as rendered. -/
structure PBDrugEffect where
  drug : Option String
  effect : Option String
  mechanism : Option String
deriving DecidableEq

/-- The drug-facts block (`none` models the falsy empty dict). -/
structure PBDrugFacts where
  drug_drug_interactions : List PBDrugDrug
  drug_condition_interactions : List PBDrugCond
  drug_effect_facts : List PBDrugEffect
deriving DecidableEq

/-- A paper as the prompt builder reads it. -/
structure PBPaper where
  title : Option String
  journal : Option String
  year : Option String
  text_preview : Option String
deriving DecidableEq

/-- The `EvidenceContext` consumed by `build_medical_prompt`. -/
structure PromptContext where
  patient : Option PBPatient
  wearables : Option PBWearables
  papers : List PBPaper
  drug_facts : Option PBDrugFacts
  drug_interactions : Option PBDrugFacts
deriving DecidableEq

/-- `_format_patient`. -/
def _format_patient : Option PBPatient → String
  | none => "No patient data available."
  | some patient =>
    let lines := ["Patient ID: " ++ renderGet patient.patient_id "Unknown"]
    let lines := lines ++
      (match patient.demographics with
       | none => []
       | some demo =>
         ["Demographics: Age " ++ renderGet demo.age "N/A" ++ ", Gender " ++
          renderGet demo.gender "N/A" ++ ", Blood Type " ++ renderGet demo.blood_type "N/A"])
    let lines := lines ++
      (if patient.conditions = [] then []
       else "\nConditions:" :: patient.conditions.map fun c =>
         let diagnosed :=
           match c.diagnosed with
           | some d => if d = "" then "" else ", Diagnosed: " ++ d
           | none => ""
         "  - " ++ renderVal c.name ++ " (Severity: " ++ renderVal c.severity ++
           ", Status: " ++ renderVal c.status ++ diagnosed ++ ")")
    let lines := lines ++
      (if patient.medications = [] then []
       else "\nMedications:" :: patient.medications.map fun m =>
         let purpose :=
           match m.purpose with
           | some p => if p = "" then "" else " — Purpose: " ++ p
           | none => ""
         let treats :=
           match m.treats with
           | some t => if t = "" then "" else " | Treats: " ++ t
           | none => ""
         "  - " ++ renderVal m.name ++ " (" ++ renderVal m.dosage ++ ", " ++
           renderVal m.frequency ++ ")" ++ purpose ++ treats)
    let lines := lines ++
      (if patient.lab_results = [] then []
       else "\nRecent Lab Results:" :: patient.lab_results.map fun l =>
         "  - " ++ renderVal l.name ++ ": " ++ renderVal l.result ++ " " ++
           renderGet l.unit "" ++ " (Normal: " ++ renderGet l.normal_range "N/A" ++
           ", Status: " ++ renderGet l.status "N/A" ++ ", Date: " ++ renderGet l.date "N/A" ++ ")")
    String.intercalate "\n" lines

/-- The render-time trend re-sanitization inside `_format_wearables`. -/
def sanitizeTrend (trend0 : String) : String :=
  if trend0 = "" ||
      containsSub ("insufficient").data (lowerStr trend0).data ||
      containsSub ("non-numeric").data (lowerStr trend0).data ||
      stripStr trend0 = "N/A" then
    "monitoring ongoing — more readings needed"
  else trend0

/-- `_format_wearables`. -/
def _format_wearables : Option PBWearables → String
  | none => "No wearable data available."
  | some wearables =>
    if !wearables.available then "No wearable data available."
    else
      let lines := wearables.metrics.flatMap fun m =>
        let trend := sanitizeTrend (m.trend.getD "")
        ("  - " ++ renderGet m.metric "Unknown Metric" ++ ": Latest " ++
          renderGet m.latest_value "not recorded" ++ ", Previous " ++
          renderGet m.previous_value "not recorded" ++ ", Avg " ++
          renderGet m.average_value "not recorded" ++ ", Normal Range: " ++
          renderGet m.normal_range "N/A" ++ ", Trend: " ++ trend) ::
        m.readings.map fun r =>
          "      [" ++ renderGet r.date "unknown date" ++ "] → " ++
            renderGet r.value "unknown value"
      if lines = [] then "No wearable metrics recorded."
      else String.intercalate "\n" lines

/-- `_format_drug_facts`. -/
def _format_drug_facts : Option PBDrugFacts → String
  | none => "No medication safety data available."
  | some drug_facts =>
    let lines :=
      drug_facts.drug_drug_interactions.map (fun f =>
        "  - Drug–Drug (" ++ renderGet f.severity "unknown" ++ "): " ++
          String.intercalate ", " f.drugs_involved ++ " → " ++ renderGet f.interaction "N/A") ++
      drug_facts.drug_condition_interactions.map (fun f =>
        "  - Drug–Condition (" ++ renderGet f.severity "unknown" ++ "): " ++
          renderVal f.drug ++ " contraindicated in " ++ renderVal f.condition) ++
      drug_facts.drug_effect_facts.map (fun f =>
        "  - Drug Effect: " ++ renderVal f.drug ++ " → " ++ renderVal f.effect ++
          " (Mechanism: " ++ renderGet f.mechanism "N/A" ++ ")")
    if lines = [] then "No known medication risks identified."
    else String.intercalate "\n" lines

/-- `_format_papers` (at most 3 papers, `[index] title (journal, year)` plus
an indented 300-character preview line). -/
def _format_papers (papers : List PBPaper) : String :=
  if papers = [] then "No relevant research papers found."
  else
    String.intercalate "\n" ((papers.take 3).enum.flatMap fun ip =>
      ("[" ++ toString (ip.1 + 1) ++ "] " ++ renderGet ip.2.title "Untitled" ++ " (" ++
        renderGet ip.2.journal "Unknown Journal" ++ ", " ++ renderGet ip.2.year "N/A" ++ ")") ::
      (let preview := (ip.2.text_preview.getD "").data.take 300
       if preview = [] then [] else ["     Summary: " ++ (⟨preview⟩ : String)]))

/-- `build_medical_prompt`: the f-string template with the five interpolated
parts, followed by `.strip()`. -/
def build_medical_prompt (question : String) (context : PromptContext) : String :=
  let drug_facts :=
    match context.drug_facts with
    | some df => some df
    | none => context.drug_interactions
  stripStr
    (promptSeg1 ++ _format_patient context.patient ++ promptSeg2 ++
      _format_wearables context.wearables ++ promptSeg3 ++
      _format_drug_facts drug_facts ++ promptSeg4 ++
      _format_papers context.papers ++ promptSeg5 ++ question ++ promptSeg6)

/-- The text after the last newline of a string: its last line. -/
def lastLine (s : String) : String :=
  ⟨(s.data.reverse.takeWhile fun c => c ≠ '\n').reverse⟩

/-- Data view of `stripStr`. -/
theorem data_stripStr (s : String) : (stripStr s).data = stripList s.data := rfl

/-- Data view of string append. -/
theorem data_append (a b : String) : (a ++ b).data = a.data ++ b.data := rfl

theorem strAppend_assoc (a b c : String) : (a ++ b) ++ c = a ++ (b ++ c) := by
  cases a with
  | mk la =>
    cases b with
    | mk lb =>
      cases c with
      | mk lc =>
        show String.mk ((la ++ lb) ++ lc) = String.mk (la ++ (lb ++ lc))
        rw [List.append_assoc]

theorem dropWhile_append_of_ne {a : List Char} (b : List Char)
    (ha : a.dropWhile isPySpace ≠ []) :
    (a ++ b).dropWhile isPySpace = a.dropWhile isPySpace ++ b := by
  rw [List.dropWhile_append, if_neg (by simpa [List.isEmpty_iff] using ha)]

theorem rdropWhile_append_of_ne (x : List Char) {y : List Char}
    (hy : List.rdropWhile isPySpace y ≠ []) :
    List.rdropWhile isPySpace (x ++ y) = x ++ List.rdropWhile isPySpace y := by
  simp only [List.rdropWhile] at *
  rw [List.reverse_append, List.dropWhile_append]
  have : ¬ (List.dropWhile isPySpace y.reverse).isEmpty = true := by
    simp only [List.isEmpty_iff]
    intro hc
    rw [hc] at hy
    simp at hy
  rw [if_neg this, List.reverse_append, List.reverse_reverse]

/-- Stripping a string with non-whitespace content at both ends only erodes
the two end segments. -/
theorem stripList_ends {a t : List Char} (m : List Char)
    (ha : a.dropWhile isPySpace ≠ []) (ht : List.rdropWhile isPySpace t ≠ []) :
    stripList ((a ++ m) ++ t) =
      (a.dropWhile isPySpace ++ m) ++ List.rdropWhile isPySpace t := by
  rw [stripList, List.append_assoc, dropWhile_append_of_ne (m ++ t) ha,
    ← List.append_assoc, rdropWhile_append_of_ne _ ht]

theorem containsSub_iff_infix {pat l : List Char} :
    containsSub pat l = true ↔ pat <:+: l := by
  rw [containsSub, Option.isSome_iff_ne_none]
  constructor
  · intro h
    rcases ho : indexOfSub pat l with _ | i
    · exact absurd ho h
    · rcases indexOfSub_some_iff.mp ho with ⟨h1, _⟩
      exact Iff.mp exists_prefix_drop_iff_infix ⟨i, h1⟩
  · intro h hn
    rcases Iff.mpr exists_prefix_drop_iff_infix h with ⟨i, hi⟩
    exact (indexOfSub_none_iff.mp hn i) hi

/-- Appending past a prefix on which `p` holds everywhere and a tail whose
`takeWhile` is empty leaves exactly the prefix. -/
theorem takeWhile_append_nil {p : Char → Bool} {u v : List Char}
    (hu : ∀ c ∈ u, p c = true) (hv : List.takeWhile p v = []) :
    List.takeWhile p (u ++ v) = u := by
  have hself : List.takeWhile p u = u := List.takeWhile_eq_self_iff.mpr hu
  rw [List.takeWhile_append, if_pos (by rw [hself]), hv, List.append_nil]

/-- A list whose head falsifies `p` has an empty `takeWhile p`. -/
theorem takeWhile_head_false {p : Char → Bool} {v : List Char} {a : Char}
    (hv : v.head? = some a) (ha : p a = false) : List.takeWhile p v = [] := by
  rcases v with _ | ⟨c, t⟩
  · rfl
  · have hc : c = a := by simpa using hv
    subst hc
    simp [List.takeWhile_cons, ha]

/-- The middle of `build_medical_prompt` between the fixed head segment and
the closing separator: every interpolated part plus the question plus the
fixed body of segment 6. -/
def promptMidA (context : PromptContext) : String :=
  _format_patient context.patient ++ promptSeg2 ++
    _format_wearables context.wearables ++ promptSeg3 ++
    _format_drug_facts (match context.drug_facts with
      | some df => some df
      | none => context.drug_interactions) ++ promptSeg4 ++
    _format_papers context.papers ++ promptSeg5

/-- The part of the template after the question, up to the last text line. -/
def promptMidB : String := promptSeg6pre ++ disclaimerLine ++ promptSeg6mid ++ promptSeg6last

set_option maxRecDepth 4000 in
theorem build_prompt_regroup (question : String) (context : PromptContext) :
    build_medical_prompt question context =
      stripStr ((promptSeg1 ++ ((promptMidA context ++ question) ++ promptMidB)) ++
        promptSeg6close) := by
  simp only [build_medical_prompt, promptMidA, promptMidB, promptSeg6]
  exact congrArg stripStr (by simp only [strAppend_assoc])

set_option maxRecDepth 4000 in
/-- Non-whitespace remains at the head segment once left-stripped. -/
theorem seg1_strip_ne : promptSeg1.data.dropWhile isPySpace ≠ [] := by decide

/-- Non-whitespace remains in the closing separator once right-stripped. -/
theorem seg6close_rdrop_ne : List.rdropWhile isPySpace promptSeg6close.data ≠ [] := by decide

/-- Right-stripping the closing separator leaves the bare separator line. -/
theorem seg6close_rdrop :
    List.rdropWhile isPySpace promptSeg6close.data = ("========================").data := by
  decide

/-- Character-list view of the built prompt: the left-stripped head segment,
the interpolated middle with the question, and the bare closing separator. -/
theorem build_prompt_data (question : String) (context : PromptContext) :
    (build_medical_prompt question context).data =
      (promptSeg1.data.dropWhile isPySpace ++
        ((promptMidA context).data ++ question.data ++ promptMidB.data)) ++
        ("========================").data := by
  rw [build_prompt_regroup, data_stripStr]
  have h : ((promptSeg1 ++ ((promptMidA context ++ question) ++ promptMidB)) ++
      promptSeg6close).data =
      (promptSeg1.data ++ ((promptMidA context).data ++ question.data ++
        promptMidB.data)) ++ promptSeg6close.data := by
    simp only [data_append, List.append_assoc]
  rw [h, stripList_ends _ seg1_strip_ne seg6close_rdrop_ne, seg6close_rdrop]

/-- The last text line of segment 6 ends in a newline. -/
theorem seg6last_getLast : promptSeg6last.data.getLast? = some '\n' := by decide

/-- Everything before the closing separator of the built prompt ends in a
newline, for any question and context. -/
theorem build_core_getLast (question : String) (context : PromptContext) :
    (promptSeg1.data.dropWhile isPySpace ++
      ((promptMidA context).data ++ question.data ++
        promptMidB.data)).getLast? = some '\x0a' := by
  have h : promptSeg1.data.dropWhile isPySpace ++
      ((promptMidA context).data ++ question.data ++ promptMidB.data) =
      (promptSeg1.data.dropWhile isPySpace ++ ((promptMidA context).data ++
        question.data ++ (promptSeg6pre ++ disclaimerLine ++ promptSeg6mid).data)) ++
        promptSeg6last.data := by
    simp only [promptMidB, data_append, List.append_assoc]
  rw [h, List.getLast?_append, seg6last_getLast]
  rfl

/-- Unfolding equation for `lastLine`. -/
theorem lastLine_def (s : String) :
    lastLine s = ⟨(s.data.reverse.takeWhile fun c => c ≠ '\x0a').reverse⟩ := rfl

/-- The last line of every built prompt is the bare closing separator:
`.strip()` removes the template's final newline, so the prompt ends with the
separator line that follows the disclaimer instruction. -/
theorem build_prompt_lastLine (question : String) (context : PromptContext) :
    lastLine (build_medical_prompt question context) = "========================" := by
  have hv : (promptSeg1.data.dropWhile isPySpace ++
      ((promptMidA context).data ++ question.data ++
        promptMidB.data)).reverse.head? = some '\x0a' := by
    rw [List.head?_reverse]
    exact build_core_getLast question context
  have heq : List.takeWhile (fun c => c ≠ '\x0a')
      (("========================").data.reverse ++
        (promptSeg1.data.dropWhile isPySpace ++
          ((promptMidA context).data ++ question.data ++
            promptMidB.data)).reverse) = ("========================").data.reverse :=
    takeWhile_append_nil (by decide) (takeWhile_head_false hv (by decide))
  rw [lastLine_def, build_prompt_data, List.reverse_append, heq, List.reverse_reverse]

/-- The question passed to `build_medical_prompt` survives verbatim as a
substring of the built prompt. -/
theorem build_prompt_question_infix (question : String) (context : PromptContext) :
    question.data <:+: (build_medical_prompt question context).data := by
  rw [build_prompt_data]
  refine ⟨promptSeg1.data.dropWhile isPySpace ++ (promptMidA context).data,
    promptMidB.data ++ ("========================").data, ?_⟩
  simp only [List.append_assoc]

/-- The disclaimer sentence of the template's always-end-with instruction. -/
def disclaimerSentence : String :=
  "Consult your healthcare provider before making any changes."

/-- The disclaimer sentence sits inside the quoted instruction line. -/
theorem disclaimer_in_line : disclaimerSentence.data <:+: disclaimerLine.data :=
  ⟨['\x22'], ['\x22', '\x0a'], by decide⟩

/-- The quoted disclaimer instruction line survives verbatim in every built
prompt. -/
theorem disclaimer_line_in_build (question : String) (context : PromptContext) :
    disclaimerLine.data <:+: (build_medical_prompt question context).data := by
  rw [build_prompt_data]
  refine ⟨promptSeg1.data.dropWhile isPySpace ++ ((promptMidA context).data ++
      (question.data ++ promptSeg6pre.data)),
    promptSeg6mid.data ++ (promptSeg6last.data ++ ("========================").data), ?_⟩
  simp only [promptMidB, data_append, List.append_assoc]

/-- The disclaimer sentence appears verbatim in every built prompt. -/
theorem build_prompt_disclaimer_infix (question : String) (context : PromptContext) :
    disclaimerSentence.data <:+: (build_medical_prompt question context).data :=
  disclaimer_in_line.trans (disclaimer_line_in_build question context)

/-- C2 (corrected): for every question string and every evidence context, the
prompt built by `build_medical_prompt` contains the question text verbatim as
a substring and contains the disclaimer sentence "Consult your healthcare
provider before making any changes." verbatim (inside the quoted
always-end-with instruction of the template); but the last line of the
returned string is the closing separator "========================", not the
disclaimer sentence: the template ends with a separator line after the
disclaimer instruction, and the final `.strip()` removes only the trailing
newline. -/
theorem C2_prompt (question : String) (context : PromptContext) :
    question.data <:+: (build_medical_prompt question context).data ∧
    disclaimerSentence.data <:+: (build_medical_prompt question context).data ∧
    lastLine (build_medical_prompt question context) = "========================" :=
  ⟨ build_prompt_question_infix question context,
    build_prompt_disclaimer_infix question context,
    build_prompt_lastLine question context⟩

/-- C2 counterexample: for the concrete question "Is it safe to exercise?"
and the empty evidence context, the last line of the built prompt is the
closing separator "========================", which is not the disclaimer
sentence — refuting the claim that the output's last line is the disclaimer. -/
theorem C2_counterexample :
    lastLine (build_medical_prompt "Is it safe to exercise?"
        ⟨none, none, [], none, none⟩) = "========================" ∧
    ("========================" : String) ≠
      "Consult your healthcare provider before making any changes." :=
  ⟨build_prompt_lastLine "Is it safe to exercise?" ⟨none, none, [], none, none⟩,
    by decide⟩

end MedRag
